import Mathlib

/-!
Verification development for the invoice-generator rendering/export core.

The TypeScript source is shallowly embedded: JavaScript numbers are
modelled by `JsNum` (exact rationals extended with the two infinities and
NaN; we idealise IEEE-754 doubles by exact rational arithmetic, ignoring
rounding, overflow to infinity of huge decimal literals, and the signed
zero, none of which the verified properties depend on), strings by Lean
`String`, and platform services (`Intl.NumberFormat`, `Math.pow`, DOM
availability, the PDF server, the canvas rasteriser) by explicit oracle
parameters threaded to exactly the places where the source consults them.
-/

/-- A JavaScript number: NaN, a signed infinity (`inf true` is `+Infinity`),
or a finite value modelled as an exact rational. -/
inductive JsNum where
  | nan : JsNum
  | inf : Bool → JsNum
  | num : ℚ → JsNum
deriving DecidableEq, Repr

namespace JsNum

/-- JavaScript addition on the extended number line (exact, no rounding). -/
def jadd : JsNum → JsNum → JsNum
  | nan, _ => nan
  | _, nan => nan
  | inf s, inf t => if s = t then inf s else nan
  | inf s, num _ => inf s
  | num _, inf t => inf t
  | num a, num b => num (a + b)

/-- JavaScript negation. -/
def jneg : JsNum → JsNum
  | nan => nan
  | inf s => inf (!s)
  | num a => num (-a)

/-- JavaScript subtraction, `a - b = a + (-b)`. -/
def jsub (a b : JsNum) : JsNum := jadd a (jneg b)

/-- JavaScript multiplication on the extended number line
(`Infinity * 0 = NaN`, signs combine). -/
def jmul : JsNum → JsNum → JsNum
  | nan, _ => nan
  | _, nan => nan
  | inf s, inf t => inf (s = t)
  | inf s, num q => if q = 0 then nan else inf (if 0 < q then s else !s)
  | num q, inf t => if q = 0 then nan else inf (if 0 < q then t else !t)
  | num a, num b => num (a * b)

/-- Division by the literal constant 100 (the only division the totals
engines perform). -/
def jdiv100 : JsNum → JsNum
  | nan => nan
  | inf s => inf s
  | num a => num (a / 100)

/-- JavaScript `x > 0` comparison (false on NaN). -/
def jgtZero : JsNum → Bool
  | nan => false
  | inf s => s
  | num a => decide (0 < a)

end JsNum

/-! ## JavaScript string-to-number semantics

`Number(s)` and `parseFloat(s)` per ECMA-262, restricted to exact rational
values (no float rounding / overflow). -/

/-- Characters treated as whitespace by JavaScript string trimming. -/
def jsIsWhitespace (c : Char) : Bool :=
  c = ' ' || c = '\t' || c = '\n' || c = '\r' ||
  c.val = 11 || c.val = 12 || c.val = 160 || c.val = 0x2028 ||
  c.val = 0x2029 || c.val = 0xFEFF || c.val = 0x1680 ||
  (0x2000 ≤ c.val && c.val ≤ 0x200A) || c.val = 0x202F ||
  c.val = 0x205F || c.val = 0x3000

/-- A decimal digit. -/
def isDecDigit (c : Char) : Bool := '0' ≤ c && c ≤ '9'

/-- A hexadecimal digit (either case). -/
def isHexDigitChar (c : Char) : Bool :=
  ('0' ≤ c && c ≤ '9') || ('a' ≤ c && c ≤ 'f') || ('A' ≤ c && c ≤ 'F')

/-- Numeric value of a decimal digit. -/
def decDigitVal (c : Char) : ℕ := c.toNat - '0'.toNat

/-- Numeric value of a hexadecimal digit. -/
def hexDigitVal (c : Char) : ℕ :=
  if '0' ≤ c && c ≤ '9' then c.toNat - '0'.toNat
  else if 'a' ≤ c && c ≤ 'f' then c.toNat - 'a'.toNat + 10
  else c.toNat - 'A'.toNat + 10

/-- Value of a big-endian digit list in the given base. -/
def digitsVal (base : ℕ) (f : Char → ℕ) (l : List Char) : ℕ :=
  l.foldl (fun acc c => acc * base + f c) 0

/-- Exact value of an unsigned decimal mantissa: integer digits `ds` and
fraction digits `fs`. -/
def mantissaVal (ds fs : List Char) : ℚ :=
  (digitsVal 10 decDigitVal ds : ℚ) +
    (digitsVal 10 decDigitVal fs : ℚ) / (10 : ℚ) ^ fs.length

/-- Parse an optional exponent part (`e`/`E`, optional sign, digits) that
must consume the whole remainder; returns the scaled value. -/
def parseExpTail (v : ℚ) : List Char → Option ℚ
  | [] => some v
  | c :: r =>
    if c = 'e' || c = 'E' then
      let signAndRest : Bool × List Char :=
        match r with
        | '+' :: r2 => (true, r2)
        | '-' :: r2 => (false, r2)
        | _ => (true, r)
      let es := signAndRest.2.takeWhile isDecDigit
      let rest := signAndRest.2.dropWhile isDecDigit
      if es = [] ∨ rest ≠ [] then none
      else
        let e : ℤ := (digitsVal 10 decDigitVal es : ℤ)
        some (v * (10 : ℚ) ^ (if signAndRest.1 then e else -e))
    else none

/-- Parse a whole unsigned decimal literal (`DecimalDigits ["." DecimalDigits]
[Exponent]` or `"." DecimalDigits [Exponent]`), consuming all of `l`. -/
def parseUnsignedDec (l : List Char) : Option ℚ :=
  let ds := l.takeWhile isDecDigit
  let r1 := l.dropWhile isDecDigit
  match r1 with
  | '.' :: r2 =>
    let fs := r2.takeWhile isDecDigit
    let r3 := r2.dropWhile isDecDigit
    if ds = [] ∧ fs = [] then none else parseExpTail (mantissaVal ds fs) r3
  | _ => if ds = [] then none else parseExpTail (mantissaVal ds []) r1

/-- Does `l` consist of at least one digit satisfying `p` and nothing else? -/
def allDigits (p : Char → Bool) (l : List Char) : Bool :=
  !l.isEmpty && l.all p

/-- The unsigned part of `Number(s)` after the optional sign:
`Infinity` or an unsigned decimal literal. -/
def jsUnsignedNumber (pos : Bool) (l : List Char) : JsNum :=
  if l = ("Infinity").data then JsNum.inf pos
  else
    match parseUnsignedDec l with
    | some v => JsNum.num (if pos then v else -v)
    | none => JsNum.nan

/-- ECMA-262 `Number(string)` semantics (exact-rational idealisation):
trim, empty → 0, non-decimal `0x`/`0o`/`0b` literals, otherwise an
optionally signed decimal literal or `Infinity`; anything else is NaN. -/
def jsStrToNumber (s : String) : JsNum :=
  let l := (s.data.dropWhile jsIsWhitespace).reverse.dropWhile jsIsWhitespace
    |>.reverse
  match l with
  | [] => JsNum.num 0
  | '0' :: x :: r =>
    if (x = 'x' || x = 'X') && allDigits isHexDigitChar r then
      JsNum.num (digitsVal 16 hexDigitVal r : ℚ)
    else if (x = 'o' || x = 'O') && allDigits (fun c => '0' ≤ c && c ≤ '7') r then
      JsNum.num (digitsVal 8 decDigitVal r : ℚ)
    else if (x = 'b' || x = 'B') && allDigits (fun c => c = '0' || c = '1') r then
      JsNum.num (digitsVal 2 decDigitVal r : ℚ)
    else jsUnsignedNumber true l
  | '+' :: r => jsUnsignedNumber true r
  | '-' :: r => jsUnsignedNumber false r
  | _ => jsUnsignedNumber true l

/-- Longest digit prefix together with the remainder. -/
def spanDigits (l : List Char) : List Char × List Char :=
  (l.takeWhile isDecDigit, l.dropWhile isDecDigit)

/-- Parse the longest exponent prefix: consume `e`/`E` sign digits only when
at least one digit follows, otherwise consume nothing. -/
def parseFloatExp (v : ℚ) : List Char → ℚ
  | [] => v
  | c :: r =>
    if c = 'e' || c = 'E' then
      let signAndRest : Bool × List Char :=
        match r with
        | '+' :: r2 => (true, r2)
        | '-' :: r2 => (false, r2)
        | _ => (true, r)
      let es := (spanDigits signAndRest.2).1
      if es = [] then v
      else
        let e : ℤ := (digitsVal 10 decDigitVal es : ℤ)
        v * (10 : ℚ) ^ (if signAndRest.1 then e else -e)
    else v

/-- ECMA-262 `parseFloat(string)` semantics (exact-rational idealisation):
skip leading whitespace, then take the longest prefix that is a signed
decimal literal or `Infinity`; NaN when no such non-empty prefix exists. -/
def jsParseFloat (s : String) : JsNum :=
  let l := s.data.dropWhile jsIsWhitespace
  let signAndRest : Bool × List Char :=
    match l with
    | '+' :: r => (true, r)
    | '-' :: r => (false, r)
    | _ => (true, l)
  let pos := signAndRest.1
  let body := signAndRest.2
  if ("Infinity").data.isPrefixOf body then JsNum.inf pos
  else
    let ds := (spanDigits body).1
    let r1 := (spanDigits body).2
    match r1 with
    | '.' :: r2 =>
      let fs := (spanDigits r2).1
      let r3 := (spanDigits r2).2
      if ds = [] ∧ fs = [] then JsNum.nan
      else
        let v := parseFloatExp (mantissaVal ds fs) r3
        JsNum.num (if pos then v else -v)
    | _ =>
      if ds = [] then JsNum.nan
      else
        let v := parseFloatExp (mantissaVal ds []) r1
        JsNum.num (if pos then v else -v)

/-- The expression `parseFloat(x) || 0` of the export totals engine: NaN
(and zero) collapse to `0`, every other value — including the infinities —
passes through. -/
def parseFloatOrZero (s : String) : JsNum :=
  match jsParseFloat s with
  | JsNum.nan => JsNum.num 0
  | x => x

/-! ## Invoice data model (`src/features/invoice/types.ts` /
`src/lib/invoice-html-template.ts`, identical shapes) -/

/-- Light/dark theme option. -/
inductive ThemeOption where
  | light : ThemeOption
  | dark : ThemeOption
deriving DecidableEq, Repr

/-- Template layout variant. -/
inductive TemplateOption where
  | modern : TemplateOption
  | classic : TemplateOption
  | minimal : TemplateOption
deriving DecidableEq, Repr

/-- Percent or flat fee type. -/
inductive FeeType where
  | percent : FeeType
  | flat : FeeType
deriving DecidableEq, Repr

/-- Logo display size. -/
inductive LogoSize where
  | small : LogoSize
  | medium : LogoSize
  | large : LogoSize
deriving DecidableEq, Repr

/-- One billable line item; quantity and rate are user-entered strings. -/
structure InvoiceItem where
  id : String
  name : String
  description : String
  quantity : String
  rate : String
deriving DecidableEq, Repr

/-- User-renameable display labels. -/
structure InvoiceLabels where
  logo : String
  from_ : String
  billTo : String
  attnTo : String
  shipTo : String
  issueDate : String
  paymentDate : String
  dueDate : String
  paymentTerms : String
  poNumber : String
  invoiceNumber : String
  items : String
  item : String
  description : String
  quantity : String
  rate : String
  notes : String
  terms : String
  subtotal : String
  tax : String
  discount : String
  shipping : String
  total : String
  amountPaid : String
  amountDue : String
deriving DecidableEq, Repr

/-- Styling options. -/
structure InvoiceStyle where
  font : String
  headerColor : String
  backgroundColor : String
  useCustomColors : Bool
  logoSize : LogoSize
deriving DecidableEq, Repr

/-- Document preferences. -/
structure InvoicePreferences where
  invoiceTheme : ThemeOption
  useCustomTheme : Bool
  currency : String
  template : TemplateOption
deriving DecidableEq, Repr

/-- Sender block. -/
structure FromInfo where
  name : String
  email : String
  phone : String
  address : String
deriving DecidableEq, Repr

/-- Client block. -/
structure ClientInfo where
  name : String
  email : String
  address : String
  attnTo : String
  shipTo : String
deriving DecidableEq, Repr

/-- Invoice metadata block. -/
structure InvoiceMeta where
  invoiceNumber : String
  poNumber : String
  issueDate : String
  paymentDate : String
  dueDate : String
  paymentTerms : String
deriving DecidableEq, Repr

/-- Fee configuration: tax, discount, shipping and amount paid, all as
user-entered strings with enabled flags. -/
structure TotalsConfig where
  taxEnabled : Bool
  taxValue : String
  taxType : FeeType
  discountEnabled : Bool
  discountValue : String
  discountType : FeeType
  shippingEnabled : Bool
  shippingValue : String
  amountPaid : String
deriving DecidableEq, Repr

/-- The canonical invoice snapshot. -/
structure InvoiceData where
  id : String
  createdAt : String
  updatedAt : String
  logoData : String
  labels : InvoiceLabels
  style : InvoiceStyle
  preferences : InvoicePreferences
  fromInfo : FromInfo
  client : ClientInfo
  meta : InvoiceMeta
  items : List InvoiceItem
  notes : String
  terms : String
  totals : TotalsConfig
deriving DecidableEq, Repr

/-! ## Preview totals engine (`src/features/invoice/types.ts`) -/

namespace InvoiceTypes

/-- `parseAmount` of `types.ts`: `Number(value)`, then
`Number.isFinite(number) ? number : 0`; all NaN and infinite parses
collapse to zero, so the preview engine computes in plain rationals. -/
def parseAmount (value : String) : ℚ :=
  match jsStrToNumber value with
  | JsNum.num q => q
  | _ => 0

/-- The seven computed totals fields of the preview engine. -/
structure Totals where
  subtotal : ℚ
  tax : ℚ
  discount : ℚ
  shipping : ℚ
  total : ℚ
  amountPaid : ℚ
  amountDue : ℚ
deriving DecidableEq, Repr

/-- `getTotals` of `types.ts`, field for field. -/
def getTotals (invoice : InvoiceData) : Totals :=
  let subtotal := invoice.items.foldl
    (fun sum item => sum + parseAmount item.quantity * parseAmount item.rate) 0
  let taxBase :=
    if invoice.totals.taxType = FeeType.percent then
      subtotal * (parseAmount invoice.totals.taxValue / 100)
    else parseAmount invoice.totals.taxValue
  let discountBase :=
    if invoice.totals.discountType = FeeType.percent then
      subtotal * (parseAmount invoice.totals.discountValue / 100)
    else parseAmount invoice.totals.discountValue
  let tax := if invoice.totals.taxEnabled then taxBase else 0
  let discount := if invoice.totals.discountEnabled then discountBase else 0
  let shipping :=
    if invoice.totals.shippingEnabled then parseAmount invoice.totals.shippingValue
    else 0
  let total := subtotal + tax + shipping - discount
  let amountPaid := parseAmount invoice.totals.amountPaid
  let amountDue := total - amountPaid
  ⟨subtotal, tax, discount, shipping, total, amountPaid, amountDue⟩

end InvoiceTypes

/-! ## Export totals engine (`src/lib/invoice-html-template.ts`) -/

namespace Template

/-- The seven computed totals fields of the export engine; `parseFloat`
keeps infinite values, so these are JavaScript numbers. -/
structure Totals where
  subtotal : JsNum
  tax : JsNum
  discount : JsNum
  shipping : JsNum
  total : JsNum
  amountPaid : JsNum
  amountDue : JsNum
deriving DecidableEq, Repr

/-- `calculateTotals` of `invoice-html-template.ts`, field for field; its
numeric strings are read with `parseFloat(x) || 0`. -/
def calculateTotals (invoice : InvoiceData) : Totals :=
  let subtotal := invoice.items.foldl
    (fun sum item =>
      JsNum.jadd sum
        (JsNum.jmul (parseFloatOrZero item.quantity) (parseFloatOrZero item.rate)))
    (JsNum.num 0)
  let tax :=
    if invoice.totals.taxEnabled then
      let taxVal := parseFloatOrZero invoice.totals.taxValue
      if invoice.totals.taxType = FeeType.percent then
        JsNum.jmul subtotal (JsNum.jdiv100 taxVal)
      else taxVal
    else JsNum.num 0
  let discount :=
    if invoice.totals.discountEnabled then
      let discountVal := parseFloatOrZero invoice.totals.discountValue
      if invoice.totals.discountType = FeeType.percent then
        JsNum.jmul subtotal (JsNum.jdiv100 discountVal)
      else discountVal
    else JsNum.num 0
  let shipping :=
    if invoice.totals.shippingEnabled then parseFloatOrZero invoice.totals.shippingValue
    else JsNum.num 0
  let total := JsNum.jadd (JsNum.jsub (JsNum.jadd subtotal tax) discount) shipping
  let amountPaid := parseFloatOrZero invoice.totals.amountPaid
  let amountDue := JsNum.jsub total amountPaid
  ⟨subtotal, tax, discount, shipping, total, amountPaid, amountDue⟩

end Template

namespace JsNum

/-- Addition of JavaScript numbers commutes in its second and third operand
(without rounding the extended arithmetic is order-invariant). -/
theorem jadd_right_comm (a b c : JsNum) : jadd (jadd a b) c = jadd (jadd a c) b := by
  rcases a with _ | s | x <;> rcases b with _ | t | y <;> rcases c with _ | u | z <;>
    simp only [jadd] <;>
    try rfl
  all_goals try cases s
  all_goals try cases t
  all_goals try cases u
  all_goals simp [jadd]
  all_goals ring

end JsNum

/-! ## Concrete example data -/

/-- The repository's default label set (`createEmptyInvoice`). -/
def defaultLabels : InvoiceLabels :=
  ⟨"Logo", "From", "Bill To", "Attn To", "Ship To", "Date", "Payment Date",
   "Due Date", "Payment Terms", "PO Number", "Invoice Number", "Items", "Item",
   "Description", "Qty", "Rate", "Notes", "Terms", "Subtotal", "Tax",
   "Discount", "Shipping", "Total", "Amount Paid", "Amount Due"⟩

/-- A baseline invoice snapshot mirroring `createEmptyInvoice` defaults with
one `{qty "2", rate "50"}` line item. -/
def baseInvoice : InvoiceData where
  id := "inv-1"
  createdAt := "2024-01-01T00:00:00.000Z"
  updatedAt := "2024-01-01T00:00:00.000Z"
  logoData := ""
  labels := defaultLabels
  style :=
    ⟨"Sora, sans-serif", "#06B6D4", "#FFFFFF", false, LogoSize.medium⟩
  preferences := ⟨ThemeOption.light, false, "USD", TemplateOption.modern⟩
  fromInfo := ⟨"", "", "", ""⟩
  client := ⟨"", "", "", "", ""⟩
  meta := ⟨"", "", "", "", "", ""⟩
  items := [⟨"item-1", "", "", "2", "50"⟩]
  notes := ""
  terms := ""
  totals := ⟨false, "0", FeeType.percent, false, "0", FeeType.percent, false, "0", "0"⟩

/-- Spec scenario 2/4: 2 × 50 with 10 % tax enabled and 130 paid. -/
def scenarioInvoice : InvoiceData :=
  { baseInvoice with
    totals := ⟨true, "10", FeeType.percent, false, "0", FeeType.percent,
               false, "0", "130"⟩ }

/-- C1 -/
theorem c1_totals_equations (inv : InvoiceData) :
    ((InvoiceTypes.getTotals inv).total =
        (InvoiceTypes.getTotals inv).subtotal + (InvoiceTypes.getTotals inv).tax +
          (InvoiceTypes.getTotals inv).shipping - (InvoiceTypes.getTotals inv).discount ∧
      (InvoiceTypes.getTotals inv).amountDue =
        (InvoiceTypes.getTotals inv).total - (InvoiceTypes.getTotals inv).amountPaid ∧
      (inv.totals.taxEnabled = false → (InvoiceTypes.getTotals inv).tax = 0) ∧
      (inv.totals.discountEnabled = false → (InvoiceTypes.getTotals inv).discount = 0) ∧
      (inv.totals.shippingEnabled = false → (InvoiceTypes.getTotals inv).shipping = 0) ∧
      (inv.totals.taxEnabled = true → inv.totals.taxType = FeeType.percent →
        (InvoiceTypes.getTotals inv).tax =
          (InvoiceTypes.getTotals inv).subtotal *
            (InvoiceTypes.parseAmount inv.totals.taxValue / 100)) ∧
      (inv.totals.taxEnabled = true → inv.totals.taxType = FeeType.flat →
        (InvoiceTypes.getTotals inv).tax = InvoiceTypes.parseAmount inv.totals.taxValue) ∧
      (inv.totals.discountEnabled = true → inv.totals.discountType = FeeType.percent →
        (InvoiceTypes.getTotals inv).discount =
          (InvoiceTypes.getTotals inv).subtotal *
            (InvoiceTypes.parseAmount inv.totals.discountValue / 100)) ∧
      (inv.totals.discountEnabled = true → inv.totals.discountType = FeeType.flat →
        (InvoiceTypes.getTotals inv).discount =
          InvoiceTypes.parseAmount inv.totals.discountValue) ∧
      (inv.totals.shippingEnabled = true →
        (InvoiceTypes.getTotals inv).shipping =
          InvoiceTypes.parseAmount inv.totals.shippingValue) ∧
      ((InvoiceTypes.getTotals inv).total < (InvoiceTypes.getTotals inv).amountPaid →
        (InvoiceTypes.getTotals inv).amountDue < 0)) ∧
    ((Template.calculateTotals inv).total =
        JsNum.jsub
          (JsNum.jadd (JsNum.jadd (Template.calculateTotals inv).subtotal
            (Template.calculateTotals inv).tax) (Template.calculateTotals inv).shipping)
          (Template.calculateTotals inv).discount ∧
      (Template.calculateTotals inv).amountDue =
        JsNum.jsub (Template.calculateTotals inv).total
          (Template.calculateTotals inv).amountPaid ∧
      (inv.totals.taxEnabled = false → (Template.calculateTotals inv).tax = JsNum.num 0) ∧
      (inv.totals.discountEnabled = false →
        (Template.calculateTotals inv).discount = JsNum.num 0) ∧
      (inv.totals.shippingEnabled = false →
        (Template.calculateTotals inv).shipping = JsNum.num 0) ∧
      (inv.totals.taxEnabled = true → inv.totals.taxType = FeeType.percent →
        (Template.calculateTotals inv).tax =
          JsNum.jmul (Template.calculateTotals inv).subtotal
            (JsNum.jdiv100 (parseFloatOrZero inv.totals.taxValue))) ∧
      (inv.totals.taxEnabled = true → inv.totals.taxType = FeeType.flat →
        (Template.calculateTotals inv).tax = parseFloatOrZero inv.totals.taxValue) ∧
      (∀ tq pq : ℚ, (Template.calculateTotals inv).total = JsNum.num tq →
        (Template.calculateTotals inv).amountPaid = JsNum.num pq →
        (Template.calculateTotals inv).amountDue = JsNum.num (tq - pq))) := by
  constructor
  · refine ⟨?_, rfl, ?_, ?_, ?_, ?_, ?_, ?_, ?_, ?_, ?_⟩
    · rfl
    · intro h; simp [InvoiceTypes.getTotals, h]
    · intro h; simp [InvoiceTypes.getTotals, h]
    · intro h; simp [InvoiceTypes.getTotals, h]
    · intro h h2; simp [InvoiceTypes.getTotals, h, h2]
    · intro h h2; simp [InvoiceTypes.getTotals, h, h2]
    · intro h h2; simp [InvoiceTypes.getTotals, h, h2]
    · intro h h2; simp [InvoiceTypes.getTotals, h, h2]
    · intro h; simp [InvoiceTypes.getTotals, h]
    · intro h
      have hdue : (InvoiceTypes.getTotals inv).amountDue =
          (InvoiceTypes.getTotals inv).total - (InvoiceTypes.getTotals inv).amountPaid := rfl
      rw [hdue]
      exact sub_neg.mpr h
  · refine ⟨?_, rfl, ?_, ?_, ?_, ?_, ?_, ?_⟩
    · have key : ∀ s t d sh : JsNum,
          JsNum.jadd (JsNum.jsub (JsNum.jadd s t) d) sh =
            JsNum.jsub (JsNum.jadd (JsNum.jadd s t) sh) d := by
        intro s t d sh
        rw [JsNum.jsub, JsNum.jsub, JsNum.jadd_right_comm]
      exact key _ _ _ _
    · intro h; simp [Template.calculateTotals, h]
    · intro h; simp [Template.calculateTotals, h]
    · intro h; simp [Template.calculateTotals, h]
    · intro h h2; simp [Template.calculateTotals, h, h2]
    · intro h h2; simp [Template.calculateTotals, h, h2]
    · intro tq pq ht hp
      have : (Template.calculateTotals inv).amountDue =
          JsNum.jsub (Template.calculateTotals inv).total
            (Template.calculateTotals inv).amountPaid := rfl
      rw [this, ht, hp]
      simp [JsNum.jsub, JsNum.jadd, JsNum.jneg, sub_eq_add_neg]

/-- Evaluation helper: a digit-only literal's mantissa is its digit value. -/
theorem mantissa_int (l : List Char) (n : ℕ) (h : digitsVal 10 decDigitVal l = n) :
    mantissaVal l [] = (n : ℚ) := by
  unfold mantissaVal
  rw [h]
  simp [digitsVal]

/-- Evaluation helper for `parseAmount` on plain digit literals. -/
theorem parseAmount_natLit (s : String) (l : List Char) (n : ℕ)
    (h1 : jsStrToNumber s = JsNum.num (mantissaVal l []))
    (h2 : digitsVal 10 decDigitVal l = n) :
    InvoiceTypes.parseAmount s = (n : ℚ) := by
  unfold InvoiceTypes.parseAmount
  rw [h1, mantissa_int l n h2]

/-- Evaluation helper for `parseFloat(x) || 0` on plain digit literals. -/
theorem parseFloatOrZero_natLit (s : String) (l : List Char) (n : ℕ)
    (h1 : jsParseFloat s = JsNum.num (mantissaVal l []))
    (h2 : digitsVal 10 decDigitVal l = n) :
    parseFloatOrZero s = JsNum.num (n : ℚ) := by
  unfold parseFloatOrZero
  rw [h1, mantissa_int l n h2]

/-- Witness for C1 at the concrete scenario invoice (2 × 50, 10 % tax,
130 paid): total decomposition, percent tax form, and a negative unclamped
amount due. -/
theorem c1_totals_equations_witness :
    (InvoiceTypes.getTotals scenarioInvoice).total =
      (InvoiceTypes.getTotals scenarioInvoice).subtotal +
        (InvoiceTypes.getTotals scenarioInvoice).tax +
        (InvoiceTypes.getTotals scenarioInvoice).shipping -
        (InvoiceTypes.getTotals scenarioInvoice).discount ∧
    (InvoiceTypes.getTotals scenarioInvoice).tax =
      (InvoiceTypes.getTotals scenarioInvoice).subtotal *
        (InvoiceTypes.parseAmount scenarioInvoice.totals.taxValue / 100) ∧
    (InvoiceTypes.getTotals scenarioInvoice).amountDue < 0 := by
  have e2 : InvoiceTypes.parseAmount ("2") = 2 := parseAmount_natLit ("2") (("2").data) 2 rfl (by decide)
  have e50 : InvoiceTypes.parseAmount ("50") = 50 :=
    parseAmount_natLit ("50") (("50").data) 50 rfl (by decide)
  have e10 : InvoiceTypes.parseAmount ("10") = 10 :=
    parseAmount_natLit ("10") (("10").data) 10 rfl (by decide)
  have e130 : InvoiceTypes.parseAmount ("130") = 130 :=
    parseAmount_natLit ("130") (("130").data) 130 rfl (by decide)
  have e0 : InvoiceTypes.parseAmount ("0") = 0 := parseAmount_natLit ("0") (("0").data) 0 rfl (by decide)
  have h := c1_totals_equations scenarioInvoice
  refine ⟨h.1.1, h.1.2.2.2.2.2.1 rfl rfl, h.1.2.2.2.2.2.2.2.2.2.2 ?_⟩
  show (InvoiceTypes.getTotals scenarioInvoice).total <
    (InvoiceTypes.getTotals scenarioInvoice).amountPaid
  simp [InvoiceTypes.getTotals, scenarioInvoice, baseInvoice, List.foldl,
    e2, e50, e10, e130, e0]
  norm_num

/-- Folding additions of mapped values from an arbitrary accumulator is the
accumulator plus the mapped sum. -/
theorem foldl_add_map_sum {α : Type} (f : α → ℚ) (l : List α) (a : ℚ) :
    l.foldl (fun acc it => acc + f it) a = a + (l.map f).sum := by
  induction l generalizing a with
  | nil => simp
  | cons x xs ih => simp [List.foldl, ih (a + f x)]; ring

/-- Invoice whose single line item has a malformed quantity with a numeric
prefix. -/
def c3Invoice : InvoiceData :=
  { baseInvoice with items := [⟨"item-1", "", "", "3abc", "2"⟩] }

/-- C3 counterexample -/
theorem c3_export_malformed_counterexample :
    (Template.calculateTotals c3Invoice).subtotal ≠
      JsNum.num ((c3Invoice.items.map
        (fun it => InvoiceTypes.parseAmount it.quantity *
          InvoiceTypes.parseAmount it.rate)).sum) ∧
    (Template.calculateTotals c3Invoice).subtotal = JsNum.num 6 ∧
    (InvoiceTypes.getTotals c3Invoice).subtotal = 0 := by
  have pq : parseFloatOrZero ("3abc") = JsNum.num 3 :=
    parseFloatOrZero_natLit ("3abc") (['3']) 3 rfl (by decide)
  have pr : parseFloatOrZero ("2") = JsNum.num 2 :=
    parseFloatOrZero_natLit ("2") (("2").data) 2 rfl (by decide)
  have aq : InvoiceTypes.parseAmount ("3abc") = 0 := rfl
  have ar : InvoiceTypes.parseAmount ("2") = 2 :=
    parseAmount_natLit ("2") (("2").data) 2 rfl (by decide)
  have hsub : (Template.calculateTotals c3Invoice).subtotal = JsNum.num 6 := by
    simp [Template.calculateTotals, c3Invoice, baseInvoice, List.foldl, pq, pr,
      JsNum.jadd, JsNum.jmul]
    norm_num
  have hclaim : ((c3Invoice.items.map
      (fun it => InvoiceTypes.parseAmount it.quantity *
        InvoiceTypes.parseAmount it.rate)).sum) = 0 := by
    simp [c3Invoice, baseInvoice, aq, ar]
  refine ⟨?_, hsub, ?_⟩
  · rw [hsub, hclaim]
    simp [JsNum.num.injEq]
  · simp [InvoiceTypes.getTotals, c3Invoice, baseInvoice, List.foldl, aq, ar]

/-- C3 (amended) -/
theorem c3_subtotal_parse_or_zero (inv : InvoiceData) :
    (InvoiceTypes.getTotals inv).subtotal =
      (inv.items.map (fun it => InvoiceTypes.parseAmount it.quantity *
        InvoiceTypes.parseAmount it.rate)).sum ∧
    (∀ s : String,
      jsStrToNumber s = JsNum.nan ∨ jsStrToNumber s = JsNum.inf true ∨
        jsStrToNumber s = JsNum.inf false →
      InvoiceTypes.parseAmount s = 0) ∧
    (∀ s : String, jsParseFloat s = JsNum.nan → parseFloatOrZero s = JsNum.num 0) ∧
    InvoiceTypes.parseAmount ("") = 0 ∧ parseFloatOrZero ("") = JsNum.num 0 := by
  refine ⟨?_, ?_, ?_, rfl, rfl⟩
  · show inv.items.foldl
      (fun sum item => sum + InvoiceTypes.parseAmount item.quantity *
        InvoiceTypes.parseAmount item.rate) 0 = _
    rw [foldl_add_map_sum
      (fun it => InvoiceTypes.parseAmount it.quantity * InvoiceTypes.parseAmount it.rate)
      inv.items 0]
    ring
  · intro s h
    unfold InvoiceTypes.parseAmount
    rcases hs : jsStrToNumber s with _ | b | q
    · rfl
    · rfl
    · rcases h with h | h | h <;> rw [hs] at h <;> exact absurd h (by simp)
  · intro s h
    unfold parseFloatOrZero
    rw [h]

/-- Witness for C3 (amended) at the baseline invoice and at the fully
malformed string literal. -/
theorem c3_subtotal_parse_or_zero_witness :
    (InvoiceTypes.getTotals baseInvoice).subtotal =
      ((baseInvoice.items.map (fun it => InvoiceTypes.parseAmount it.quantity *
        InvoiceTypes.parseAmount it.rate)).sum) ∧
    InvoiceTypes.parseAmount ("zz") = 0 ∧ parseFloatOrZero ("zz") = JsNum.num 0 := by
  have h := c3_subtotal_parse_or_zero baseInvoice
  exact ⟨h.1, h.2.1 ("zz") (Or.inl rfl), h.2.2.1 ("zz") rfl⟩

namespace JsNum

/-- Addition of two finite JavaScript numbers. -/
theorem jadd_num (a b : ℚ) : jadd (num a) (num b) = num (a + b) := rfl

/-- Multiplication of two finite JavaScript numbers. -/
theorem jmul_num (a b : ℚ) : jmul (num a) (num b) = num (a * b) := rfl

/-- Subtraction of two finite JavaScript numbers. -/
theorem jsub_num (a b : ℚ) : jsub (num a) (num b) = num (a - b) := by
  simp [jsub, jadd, jneg, sub_eq_add_neg]

/-- Division of a finite JavaScript number by 100. -/
theorem jdiv100_num (a : ℚ) : jdiv100 (num a) = num (a / 100) := rfl

end JsNum

/-- A numeric string on which the two engines' parse rules coincide. -/
def parsesAgree (s : String) : Prop :=
  parseFloatOrZero s = JsNum.num (InvoiceTypes.parseAmount s)

/-- The seven-field agreement between the preview and the export totals. -/
def totalsAgree (t : InvoiceTypes.Totals) (u : Template.Totals) : Prop :=
  u.subtotal = JsNum.num t.subtotal ∧ u.tax = JsNum.num t.tax ∧
  u.discount = JsNum.num t.discount ∧ u.shipping = JsNum.num t.shipping ∧
  u.total = JsNum.num t.total ∧ u.amountPaid = JsNum.num t.amountPaid ∧
  u.amountDue = JsNum.num t.amountDue

/-- The export subtotal fold mirrors the preview subtotal fold whenever the
item-level parses agree. -/
theorem foldl_subtotal_agree (l : List InvoiceItem) (a : ℚ)
    (h : ∀ it ∈ l, parsesAgree it.quantity ∧ parsesAgree it.rate) :
    l.foldl (fun sum it => JsNum.jadd sum
      (JsNum.jmul (parseFloatOrZero it.quantity) (parseFloatOrZero it.rate)))
      (JsNum.num a) =
    JsNum.num (l.foldl (fun sum it => sum + InvoiceTypes.parseAmount it.quantity *
      InvoiceTypes.parseAmount it.rate) a) := by
  induction l generalizing a with
  | nil => rfl
  | cons x xs ih =>
    have hx := h x (List.mem_cons_self x xs)
    have hxs : ∀ it ∈ xs, parsesAgree it.quantity ∧ parsesAgree it.rate :=
      fun it hit => h it (List.mem_cons_of_mem x hit)
    simp only [List.foldl]
    rw [hx.1, hx.2, JsNum.jmul_num, JsNum.jadd_num]
    exact ih _ hxs

/-- C2 (amended) -/
theorem c2_engines_agree (inv : InvoiceData)
    (hitems : ∀ it ∈ inv.items, parsesAgree it.quantity ∧ parsesAgree it.rate)
    (htax : parsesAgree inv.totals.taxValue)
    (hdisc : parsesAgree inv.totals.discountValue)
    (hship : parsesAgree inv.totals.shippingValue)
    (hpaid : parsesAgree inv.totals.amountPaid) :
    totalsAgree (InvoiceTypes.getTotals inv) (Template.calculateTotals inv) := by
  have hsub := foldl_subtotal_agree inv.items 0 hitems
  unfold parsesAgree at htax hdisc hship hpaid
  rcases hte : inv.totals.taxEnabled <;> rcases htt : inv.totals.taxType <;>
    rcases hde : inv.totals.discountEnabled <;> rcases hdt : inv.totals.discountType <;>
    rcases hse : inv.totals.shippingEnabled <;>
    refine ⟨?_, ?_, ?_, ?_, ?_, ?_, ?_⟩ <;>
    simp only [InvoiceTypes.getTotals, Template.calculateTotals, hte, htt, hde, hdt,
      hse, hsub, htax, hdisc, hship, hpaid, JsNum.jadd_num, JsNum.jmul_num,
      JsNum.jsub_num, JsNum.jdiv100_num, if_true, if_false, Bool.false_eq_true,
      ite_false, ite_true, reduceCtorEq] <;>
    first
      | rfl
      | (rw [JsNum.num.injEq]; ring)

/-- Invoice whose single line item has quantity `"12px"`: `parseFloat` reads
12, `Number` reads NaN. -/
def c2Invoice : InvoiceData :=
  { baseInvoice with items := [⟨"item-1", "", "", "12px", "1"⟩] }

/-- C2 counterexample -/
theorem c2_engines_disagree_counterexample :
    ¬ totalsAgree (InvoiceTypes.getTotals c2Invoice)
      (Template.calculateTotals c2Invoice) := by
  intro h
  have h1 := h.1
  have pf : parseFloatOrZero ("12px") = JsNum.num 12 :=
    parseFloatOrZero_natLit ("12px") (['1', '2']) 12 rfl (by decide)
  have pf1 : parseFloatOrZero ("1") = JsNum.num 1 :=
    parseFloatOrZero_natLit ("1") (['1']) 1 rfl (by decide)
  have pa : InvoiceTypes.parseAmount ("12px") = 0 := rfl
  have pa1 : InvoiceTypes.parseAmount ("1") = 1 :=
    parseAmount_natLit ("1") (['1']) 1 rfl (by decide)
  simp only [Template.calculateTotals, InvoiceTypes.getTotals, c2Invoice, baseInvoice,
    List.foldl, pf, pf1, pa, pa1, JsNum.jadd_num, JsNum.jmul_num,
    JsNum.num.injEq] at h1
  norm_num at h1

/-- Witness for C2 (amended): on the scenario invoice every numeric string is
a plain decimal numeral, so the hypotheses hold and the engines agree. -/
theorem c2_engines_agree_witness :
    totalsAgree (InvoiceTypes.getTotals scenarioInvoice)
      (Template.calculateTotals scenarioInvoice) := by
  have ag : ∀ (s : String) (l : List Char) (n : ℕ),
      jsParseFloat s = JsNum.num (mantissaVal l []) →
      jsStrToNumber s = JsNum.num (mantissaVal l []) →
      digitsVal 10 decDigitVal l = n → parsesAgree s := by
    intro s l n h1 h2 h3
    rw [parsesAgree, parseFloatOrZero_natLit s l n h1 h3, parseAmount_natLit s l n h2 h3]
  have ag2 : parsesAgree ("2") := ag ("2") (['2']) 2 rfl rfl (by decide)
  have ag50 : parsesAgree ("50") := ag ("50") (['5', '0']) 50 rfl rfl (by decide)
  have ag10 : parsesAgree ("10") := ag ("10") (['1', '0']) 10 rfl rfl (by decide)
  have ag0 : parsesAgree ("0") := ag ("0") (['0']) 0 rfl rfl (by decide)
  have ag130 : parsesAgree ("130") := ag ("130") (['1', '3', '0']) 130 rfl rfl (by decide)
  refine c2_engines_agree scenarioInvoice ?_ ag10 ag0 ag0 ag130
  intro it hit
  have : it = (⟨"item-1", "", "", "2", "50"⟩ : InvoiceItem) := by
    simpa [scenarioInvoice, baseInvoice] using hit
  rw [this]
  exact ⟨ag2, ag50⟩

namespace InvoiceTypes

/-- `normalizeHex` of `types.ts` (duplicated verbatim in the UI shell):
strip non-hex characters, empty → white, 3 digits → doubled, otherwise
right-pad with `'0'` and truncate to 6. -/
def normalizeHex (hex : String) : String :=
  let cleaned := hex.data.filter isHexDigitChar
  if cleaned = [] then "#FFFFFF"
  else if cleaned.length = 3 then
    String.mk ('#' :: (cleaned.map (fun c => [c, c])).flatten)
  else String.mk ('#' :: (cleaned ++ List.replicate (6 - cleaned.length) '0').take 6)

end InvoiceTypes

/-- C6 -/
theorem c6_normalizeHex_total (s : String) :
    (InvoiceTypes.normalizeHex s).data.head? = some '#' ∧
    (InvoiceTypes.normalizeHex s).data.length = 7 ∧
    (∀ c ∈ (InvoiceTypes.normalizeHex s).data.drop 1, isHexDigitChar c = true) ∧
    (s.data.filter isHexDigitChar = [] → InvoiceTypes.normalizeHex s = "#FFFFFF") ∧
    ((s.data.filter isHexDigitChar).length = 3 → InvoiceTypes.normalizeHex s =
      String.mk ('#' :: ((s.data.filter isHexDigitChar).map (fun c => [c, c])).flatten)) ∧
    (s.data.filter isHexDigitChar ≠ [] → (s.data.filter isHexDigitChar).length ≠ 3 →
      InvoiceTypes.normalizeHex s =
        String.mk ('#' :: ((s.data.filter isHexDigitChar) ++
          List.replicate (6 - (s.data.filter isHexDigitChar).length) '0').take 6)) := by
  have hhex : ∀ c ∈ s.data.filter isHexDigitChar, isHexDigitChar c = true :=
    fun c hc => List.of_mem_filter hc
  unfold InvoiceTypes.normalizeHex
  by_cases h0 : s.data.filter isHexDigitChar = []
  · rw [if_pos h0]
    refine ⟨rfl, rfl, by decide, fun _ => rfl, ?_, ?_⟩
    · intro h3; rw [h0] at h3; simp at h3
    · intro hne; exact absurd h0 hne
  · rw [if_neg h0]
    by_cases h3 : (s.data.filter isHexDigitChar).length = 3
    · rw [if_pos h3]
      obtain ⟨a, b, c, habc⟩ := List.length_eq_three.mp h3
      refine ⟨rfl, ?_, ?_, fun h => absurd h h0, fun _ => rfl, fun _ h => absurd h3 h⟩
      · rw [habc]; rfl
      · rw [habc]
        intro d hd
        simp only [List.map, List.flatten] at hd
        have ha := hhex a (by rw [habc]; simp)
        have hb := hhex b (by rw [habc]; simp)
        have hc := hhex c (by rw [habc]; simp)
        simp at hd
        rcases hd with h | h | h <;> rw [h] <;> assumption
    · rw [if_neg h3]
      have hlen : ((s.data.filter isHexDigitChar ++
          List.replicate (6 - (s.data.filter isHexDigitChar).length) '0').take 6).length
          = 6 := by
        rw [List.length_take, List.length_append, List.length_replicate]
        have : (s.data.filter isHexDigitChar).length ≠ 0 := by
          intro h; exact h0 (List.length_eq_zero.mp h)
        omega
      refine ⟨rfl, ?_, ?_, fun h => absurd h h0, fun h => absurd h h3, fun _ _ => rfl⟩
      · simp only [String.data]
        rw [List.length_cons, hlen]
      · intro d hd
        simp only [String.data, List.drop] at hd
        have hd2 := List.mem_of_mem_take hd
        rcases List.mem_append.mp hd2 with h | h
        · exact hhex d h
        · rw [List.eq_of_mem_replicate h]; decide

/-- Witness for C6 at the malformed literals from the spec: `"zzz"` strips
to nothing and yields white, `"#1"` pads to six digits, `"abc"` doubles. -/
theorem c6_normalizeHex_total_witness :
    InvoiceTypes.normalizeHex ("zzz") = "#FFFFFF" ∧
    InvoiceTypes.normalizeHex ("#1") = "#100000" ∧
    InvoiceTypes.normalizeHex ("abc") = "#aabbcc" := by
  refine ⟨(c6_normalizeHex_total ("zzz")).2.2.2.1 (by decide), ?_, ?_⟩
  · rw [(c6_normalizeHex_total ("#1")).2.2.2.2.2 (by decide) (by decide)]
    decide
  · rw [(c6_normalizeHex_total ("abc")).2.2.2.2.1 (by decide)]
    decide

/-- An RGB triple; channel values are JavaScript numbers (here always
integral rationals). -/
structure Rgb where
  r : ℚ
  g : ℚ
  b : ℚ
deriving DecidableEq, Repr

/-- JavaScript `Math.round`: nearest integer, half-way cases toward `+∞`. -/
def jsRound (x : ℚ) : ℚ := ((⌊x + 1 / 2⌋ : ℤ) : ℚ)

/-- Remove the first occurrence of a character (JavaScript
`String.replace(pattern, "")` with a single-character pattern). -/
def removeFirst (c : Char) : List Char → List Char
  | [] => []
  | x :: r => if x = c then r else x :: removeFirst c r

/-- Digits of the fractional part of a nonnegative rational, up to the fuel
bound (exact for terminating decimals such as the palette alphas). -/
def fracDigits (q : ℚ) : ℕ → List Char
  | 0 => []
  | fuel + 1 =>
    if q = 0 then []
    else
      let q10 := q * 10
      let d := ⌊q10⌋
      Char.ofNat ('0'.toNat + d.toNat) :: fracDigits (q10 - (d : ℚ)) fuel

/-- Shortest decimal rendering of a terminating rational, as JavaScript
prints the palette's numeric interpolations. -/
def decimalRepr (q : ℚ) : String :=
  (if q < 0 then "-" else "") ++ toString ⌊|q|⌋ ++
    (let fd := fracDigits (|q| - (⌊|q|⌋ : ℚ)) 20
     if fd = [] then "" else "." ++ String.mk fd)

namespace InvoiceTypes

/-- `hexToRgb` of `types.ts` (duplicated verbatim in the UI shell):
normalize, strip the hash, read three hex pairs. -/
def hexToRgb (hex : String) : Rgb :=
  let normalized := removeFirst '#' (normalizeHex hex).data
  ⟨(digitsVal 16 hexDigitVal (normalized.take 2) : ℚ),
   (digitsVal 16 hexDigitVal ((normalized.drop 2).take 2) : ℚ),
   (digitsVal 16 hexDigitVal ((normalized.drop 4).take 2) : ℚ)⟩

/-- `getContrastColorFromRgb` of `types.ts`: threshold the plain weighted
channel average at 0.6. -/
def getContrastColorFromRgb (rgb : Rgb) : String :=
  let luminance := ((0.2126 : ℚ) * rgb.r + (0.7152 : ℚ) * rgb.g +
    (0.0722 : ℚ) * rgb.b) / 255
  if luminance > (0.6 : ℚ) then "#111111" else "#FFFFFF"

/-- `getContrastColor` of `types.ts`. -/
def getContrastColor (hex : String) : String :=
  getContrastColorFromRgb (hexToRgb hex)

/-- `rgba(...)` string helper of `types.ts`. -/
def rgba (rgb : Rgb) (alpha : ℚ) : String :=
  "rgba(" ++ decimalRepr rgb.r ++ ", " ++ decimalRepr rgb.g ++ ", " ++
    decimalRepr rgb.b ++ ", " ++ decimalRepr alpha ++ ")"

/-- `blendRgb` of `types.ts`: per-channel alpha blend, rounded. -/
def blendRgb (foreground background : Rgb) (alpha : ℚ) : Rgb :=
  ⟨jsRound (foreground.r * alpha + background.r * (1 - alpha)),
   jsRound (foreground.g * alpha + background.g * (1 - alpha)),
   jsRound (foreground.b * alpha + background.b * (1 - alpha))⟩

/-- The palette record returned by `getInvoicePalette` of `types.ts`. -/
structure InvoicePalette where
  background : String
  foreground : String
  muted : String
  border : String
  mutedBg : String
  header : String
  headerOverlay : String
  headerForeground : String
  headerShadow : String
  backgroundShadow : String
deriving DecidableEq, Repr

/-- `getInvoicePalette` of `types.ts`: the preview resolver; the header
foreground contrasts against the header blended at alpha 0.25 into the
background. -/
def getInvoicePalette (background header : String) : InvoicePalette :=
  let normalizedBackground := normalizeHex background
  let normalizedHeader := normalizeHex header
  let bgRgb := hexToRgb normalizedBackground
  let headerRgb := hexToRgb normalizedHeader
  let headerAlpha : ℚ := 0.25
  let blendedHeaderRgb := blendRgb headerRgb bgRgb headerAlpha
  let foreground := getContrastColor normalizedBackground
  let headerForeground := getContrastColorFromRgb blendedHeaderRgb
  let muted := if foreground = "#FFFFFF" then "rgba(255, 255, 255, 0.72)"
    else "rgba(17, 17, 17, 0.6)"
  let border := if foreground = "#FFFFFF" then "rgba(255, 255, 255, 0.18)"
    else "rgba(17, 17, 17, 0.14)"
  let mutedBg := if foreground = "#FFFFFF" then "rgba(255, 255, 255, 0.08)"
    else "rgba(17, 17, 17, 0.05)"
  ⟨normalizedBackground, foreground, muted, border, mutedBg, normalizedHeader,
   rgba headerRgb headerAlpha, headerForeground, rgba headerRgb (0.32 : ℚ),
   rgba bgRgb (0.12 : ℚ)⟩

end InvoiceTypes

namespace Shell

/-- The palette record returned by the UI shell's `getInvoicePalette`. -/
structure ShellPalette where
  background : String
  foreground : String
  muted : String
  border : String
  mutedBg : String
  header : String
  headerForeground : String
  headerShadow : String
  backgroundShadow : String
deriving DecidableEq, Repr

/-- `getContrastColor` of the UI shell: same 0.6 threshold on the plain
weighted average (the shell duplicates `hexToRgb`/`normalizeHex` verbatim,
so those embeddings are shared). -/
def getContrastColor (hex : String) : String :=
  let rgb := InvoiceTypes.hexToRgb hex
  let luminance := ((0.2126 : ℚ) * rgb.r + (0.7152 : ℚ) * rgb.g +
    (0.0722 : ℚ) * rgb.b) / 255
  if luminance > (0.6 : ℚ) then "#111111" else "#FFFFFF"

/-- `getInvoicePalette` of the UI shell (`part_001`): the header foreground
contrasts against the raw header colour, with no blending. -/
def getInvoicePalette (background header : String) : ShellPalette :=
  let bgRgb := InvoiceTypes.hexToRgb background
  let headerRgb := InvoiceTypes.hexToRgb header
  let foreground := getContrastColor background
  let headerForeground := getContrastColor header
  let muted := if foreground = "#FFFFFF" then "rgba(255, 255, 255, 0.72)"
    else "rgba(17, 17, 17, 0.6)"
  let border := if foreground = "#FFFFFF" then "rgba(255, 255, 255, 0.18)"
    else "rgba(17, 17, 17, 0.14)"
  let mutedBg := if foreground = "#FFFFFF" then "rgba(255, 255, 255, 0.08)"
    else "rgba(17, 17, 17, 0.05)"
  ⟨InvoiceTypes.normalizeHex background, foreground, muted, border, mutedBg,
   InvoiceTypes.normalizeHex header, headerForeground,
   InvoiceTypes.rgba headerRgb (0.32 : ℚ), InvoiceTypes.rgba bgRgb (0.12 : ℚ)⟩

end Shell

namespace Template

/-- The palette record of `invoice-html-template.ts`. -/
structure InvoicePalette where
  background : String
  foreground : String
  muted : String
  border : String
  headerOverlay : String
  headerForeground : String
deriving DecidableEq, Repr

/-- `hexToRgb` of `invoice-html-template.ts`: strict 6-digit regex match,
`null` (here `none`) on anything else. -/
def hexToRgb (hex : String) : Option Rgb :=
  let body := match hex.data with
    | '#' :: r => r
    | l => l
  if body.length = 6 ∧ body.all isHexDigitChar then
    some ⟨(digitsVal 16 hexDigitVal (body.take 2) : ℚ),
          (digitsVal 16 hexDigitVal ((body.drop 2).take 2) : ℚ),
          (digitsVal 16 hexDigitVal ((body.drop 4).take 2) : ℚ)⟩
  else none

/-- `getLuminance` of `invoice-html-template.ts`: true linearised sRGB
luminance; the irrational `Math.pow(_, 2.4)` gamma is supplied as an
oracle `pow` parameter. -/
def getLuminance (pow : ℚ → ℚ → ℚ) (r g b : ℚ) : ℚ :=
  let lin := fun c =>
    let s := c / 255
    if s ≤ (0.03928 : ℚ) then s / (12.92 : ℚ)
    else pow ((s + (0.055 : ℚ)) / (1.055 : ℚ)) (2.4 : ℚ)
  (0.2126 : ℚ) * lin r + (0.7152 : ℚ) * lin g + (0.0722 : ℚ) * lin b

/-- `getContrastingTextColor` of `invoice-html-template.ts`: threshold the
linear luminance at 0.179. -/
def getContrastingTextColor (pow : ℚ → ℚ → ℚ) (bgColor : String) : String :=
  match hexToRgb bgColor with
  | none => "#000000"
  | some rgb =>
    if getLuminance pow rgb.r rgb.g rgb.b > (0.179 : ℚ) then "#1f2937" else "#f9fafb"

/-- `getInvoicePalette` of `invoice-html-template.ts`: the export resolver;
the header foreground contrasts against the raw header colour. -/
def getInvoicePalette (pow : ℚ → ℚ → ℚ)
    (backgroundColor headerColor : String) : InvoicePalette :=
  let bgRgb := hexToRgb backgroundColor
  let bgLuminance := match bgRgb with
    | some rgb => getLuminance pow rgb.r rgb.g rgb.b
    | none => 1
  let isDark := bgLuminance < (0.5 : ℚ)
  ⟨backgroundColor, getContrastingTextColor pow backgroundColor,
   if isDark then "#9ca3af" else "#6b7280",
   if isDark then "#374151" else "#e5e7eb",
   headerColor, getContrastingTextColor pow headerColor⟩

end Template

/-- On a white background with a black header, the preview resolver blends
the header to light grey (191,191,191) and therefore picks its dark text
colour for both foreground roles. -/
theorem preview_palette_black_on_white :
    (InvoiceTypes.getInvoicePalette ("#FFFFFF") ("#000000")).headerForeground =
      "#111111" ∧
    (InvoiceTypes.getInvoicePalette ("#FFFFFF") ("#000000")).foreground =
      "#111111" := by
  have e1 : InvoiceTypes.normalizeHex ("#FFFFFF") = "#FFFFFF" := by decide
  have e2 : InvoiceTypes.normalizeHex ("#000000") = "#000000" := by decide
  have hw : InvoiceTypes.hexToRgb ("#FFFFFF") =
      ⟨((255:ℕ):ℚ), ((255:ℕ):ℚ), ((255:ℕ):ℚ)⟩ := rfl
  have hk : InvoiceTypes.hexToRgb ("#000000") = ⟨((0:ℕ):ℚ), ((0:ℕ):ℚ), ((0:ℕ):ℚ)⟩ :=
    rfl
  have hblend : InvoiceTypes.blendRgb ⟨((0:ℕ):ℚ), ((0:ℕ):ℚ), ((0:ℕ):ℚ)⟩
      ⟨((255:ℕ):ℚ), ((255:ℕ):ℚ), ((255:ℕ):ℚ)⟩ (0.25 : ℚ) = ⟨191, 191, 191⟩ := by
    unfold InvoiceTypes.blendRgb jsRound
    norm_num
  have hgray : InvoiceTypes.getContrastColorFromRgb ⟨191, 191, 191⟩ = "#111111" := by
    unfold InvoiceTypes.getContrastColorFromRgb
    rw [if_pos (by norm_num)]
  have hwhite : InvoiceTypes.getContrastColorFromRgb
      ⟨((255:ℕ):ℚ), ((255:ℕ):ℚ), ((255:ℕ):ℚ)⟩ = "#111111" := by
    unfold InvoiceTypes.getContrastColorFromRgb
    rw [if_pos (by norm_num)]
  constructor
  · simp only [InvoiceTypes.getInvoicePalette, e1, e2, hw, hk, hblend, hgray]
  · simp only [InvoiceTypes.getInvoicePalette, InvoiceTypes.getContrastColor,
      e1, e2, hw, hwhite]

/-- C7 counterexample -/
theorem c7_preview_header_contrast_counterexample :
    (InvoiceTypes.getInvoicePalette ("#FFFFFF") ("#000000")).headerForeground =
      "#111111" ∧
    (InvoiceTypes.getInvoicePalette ("#FFFFFF") ("#000000")).headerForeground ≠
      "#FFFFFF" ∧
    (InvoiceTypes.getInvoicePalette ("#FFFFFF") ("#000000")).foreground =
      "#111111" :=
  ⟨preview_palette_black_on_white.1,
   by rw [preview_palette_black_on_white.1]; decide,
   preview_palette_black_on_white.2⟩

/-- C7 (amended) -/
theorem c7_contrast_roles_amended (pow : ℚ → ℚ → ℚ)
    (hpow : pow 1 (2.4 : ℚ) = 1) :
    (Template.getInvoicePalette pow ("#FFFFFF") ("#000000")).headerForeground =
      "#f9fafb" ∧
    (Template.getInvoicePalette pow ("#FFFFFF") ("#000000")).foreground =
      "#1f2937" ∧
    (Shell.getInvoicePalette ("#FFFFFF") ("#000000")).headerForeground =
      "#FFFFFF" ∧
    (Shell.getInvoicePalette ("#FFFFFF") ("#000000")).foreground = "#111111" ∧
    (InvoiceTypes.getInvoicePalette ("#FFFFFF") ("#000000")).headerForeground =
      "#111111" ∧
    (InvoiceTypes.getInvoicePalette ("#FFFFFF") ("#000000")).foreground =
      "#111111" := by
  have hw : Template.hexToRgb ("#FFFFFF") =
      some ⟨((255:ℕ):ℚ), ((255:ℕ):ℚ), ((255:ℕ):ℚ)⟩ := rfl
  have hk : Template.hexToRgb ("#000000") =
      some ⟨((0:ℕ):ℚ), ((0:ℕ):ℚ), ((0:ℕ):ℚ)⟩ := rfl
  have hlumW : Template.getLuminance pow ((255:ℕ):ℚ) ((255:ℕ):ℚ) ((255:ℕ):ℚ) = 1 := by
    unfold Template.getLuminance
    dsimp only
    rw [if_neg (by norm_num), show (((255:ℕ):ℚ) / 255 + (0.055 : ℚ)) / (1.055 : ℚ) = 1
      by norm_num, hpow]
    norm_num
  have hlumK : Template.getLuminance pow ((0:ℕ):ℚ) ((0:ℕ):ℚ) ((0:ℕ):ℚ) = 0 := by
    unfold Template.getLuminance
    dsimp only
    rw [if_pos (by norm_num)]
    norm_num
  have hcW : Template.getContrastingTextColor pow ("#FFFFFF") = "#1f2937" := by
    unfold Template.getContrastingTextColor
    rw [hw]
    simp only [hlumW]
    rw [if_pos (by norm_num)]
  have hcK : Template.getContrastingTextColor pow ("#000000") = "#f9fafb" := by
    unfold Template.getContrastingTextColor
    rw [hk]
    simp only [hlumK]
    rw [if_neg (by norm_num)]
  have sW : InvoiceTypes.hexToRgb ("#FFFFFF") =
      ⟨((255:ℕ):ℚ), ((255:ℕ):ℚ), ((255:ℕ):ℚ)⟩ := rfl
  have sK : InvoiceTypes.hexToRgb ("#000000") = ⟨((0:ℕ):ℚ), ((0:ℕ):ℚ), ((0:ℕ):ℚ)⟩ :=
    rfl
  have shW : Shell.getContrastColor ("#FFFFFF") = "#111111" := by
    unfold Shell.getContrastColor
    dsimp only
    rw [sW, if_pos (by norm_num)]
  have shK : Shell.getContrastColor ("#000000") = "#FFFFFF" := by
    unfold Shell.getContrastColor
    dsimp only
    rw [sK, if_neg (by norm_num)]
  refine ⟨?_, ?_, ?_, ?_, preview_palette_black_on_white.1,
    preview_palette_black_on_white.2⟩
  · simp only [Template.getInvoicePalette, hcK]
  · simp only [Template.getInvoicePalette, hcW]
  · simp only [Shell.getInvoicePalette, shK]
  · simp only [Shell.getInvoicePalette, shW]

/-- Witness for C7 (amended): the identity-on-base oracle satisfies the
`pow 1 2.4 = 1` hypothesis. -/
theorem c7_contrast_roles_amended_witness :
    (Template.getInvoicePalette (fun x _ => x) ("#FFFFFF") ("#000000")).headerForeground =
      "#f9fafb" ∧
    (Template.getInvoicePalette (fun x _ => x) ("#FFFFFF") ("#000000")).foreground =
      "#1f2937" :=
  ⟨(c7_contrast_roles_amended (fun x _ => x) rfl).1,
   (c7_contrast_roles_amended (fun x _ => x) rfl).2.1⟩

/-- Two-digit rendering of a fraction value below 100. -/
def twoFracDigits (m : ℕ) : String :=
  if m < 10 then "0" ++ toString m else toString m

/-- JavaScript `Number.prototype.toFixed(2)`: sign, then the magnitude
rounded to two decimals (ties away from zero on the magnitude); the
non-finite values print their standard names. -/
def jsToFixed2 : JsNum → String
  | JsNum.nan => "NaN"
  | JsNum.inf true => "Infinity"
  | JsNum.inf false => "-Infinity"
  | JsNum.num q =>
    let n := (⌊|q| * 100 + 1 / 2⌋).toNat
    (if q < 0 then "-" else "") ++ toString (n / 100) ++ "." ++ twoFracDigits (n % 100)

/-- A currency code accepted by `Intl.NumberFormat`: exactly three ASCII
letters (ECMA-402 throws a `RangeError` otherwise). -/
def isWellFormedCurrency (c : String) : Bool :=
  c.data.length = 3 &&
    c.data.all (fun ch => ('A' ≤ ch && ch ≤ 'Z') || ('a' ≤ ch && ch ≤ 'z'))

/-- A sample `Intl.NumberFormat(..).format` oracle: fails (throws, modelled
as `none`) exactly on malformed currency codes, formats otherwise. -/
def intlSample : JsNum → String → Option String := fun v c =>
  if isWellFormedCurrency c then some ("[" ++ c ++ "] " ++ jsToFixed2 v) else none

namespace Template

/-- `formatCurrency` of `invoice-html-template.ts`: try the locale
formatter, and on failure fall back to `"$" + amount.toFixed(2)`. -/
def formatCurrency (intl : JsNum → String → Option String)
    (amount : JsNum) (currency : String) : String :=
  match intl amount currency with
  | some s => s
  | none => "$" ++ jsToFixed2 amount

end Template

namespace InvoiceTypes

/-- `formatCurrency` of `types.ts`: calls the locale formatter with no
`try`/`catch`; a formatting failure (`none`) propagates to the caller. -/
def formatCurrency (intl : JsNum → String → Option String)
    (value : ℚ) (currency : String) : Option String :=
  intl (JsNum.num value) currency

end InvoiceTypes

/-- C8 counterexample -/
theorem c8_preview_formatter_throws_counterexample :
    InvoiceTypes.formatCurrency intlSample 5 ("!!") = none ∧
    (∀ s : String, InvoiceTypes.formatCurrency intlSample 5 ("!!") ≠ some s) := by
  constructor
  · rfl
  · intro s h
    rw [show InvoiceTypes.formatCurrency intlSample 5 ("!!") = none from rfl] at h
    exact Option.noConfusion h

/-- C8 (amended) -/
theorem c8_formatter_fallback (intl : JsNum → String → Option String)
    (amount : JsNum) (currency : String) :
    (intl amount currency = none →
      Template.formatCurrency intl amount currency = "$" ++ jsToFixed2 amount) ∧
    (∀ s : String, intl amount currency = some s →
      Template.formatCurrency intl amount currency = s) ∧
    (∀ v : ℚ, intl (JsNum.num v) currency = none →
      InvoiceTypes.formatCurrency intl v currency = none) := by
  refine ⟨?_, ?_, ?_⟩
  · intro h
    unfold Template.formatCurrency
    rw [h]
  · intro s h
    unfold Template.formatCurrency
    rw [h]
  · intro v h
    unfold InvoiceTypes.formatCurrency
    exact h

/-- Witness for C8 (amended): a failing oracle makes the export formatter
produce the dollar fallback with two fixed decimals. -/
theorem c8_formatter_fallback_witness :
    Template.formatCurrency (fun _ _ => none) (JsNum.num 5) ("!!") = "$5.00" := by
  have h := (c8_formatter_fallback (fun _ _ => none) (JsNum.num 5) ("!!")).1 rfl
  rw [h]
  unfold jsToFixed2
  dsimp only
  rw [show (⌊|(5 : ℚ)| * 100 + 1 / 2⌋ : ℤ) = 500 from by norm_num,
    if_neg (by norm_num)]
  rfl

/-- The band-slicing loop of `generatePdfClientSide` (duplicated in the UI
shell's `exportToPdf`): starting at offset `pos`, each iteration calls
`addImage` at vertical offset `-pos` while `pos < renderHeight`, then
advances by `pageHeight`; the fuel bound is irrelevant once it dominates the
page count (the loop body only moves `pos` upward by the fixed positive page
height). -/
def sliceLoop (renderHeight pageHeight : ℚ) : ℚ → ℕ → List ℚ
  | _, 0 => []
  | pos, fuel + 1 =>
    if pos < renderHeight then
      (-pos) :: sliceLoop renderHeight pageHeight (pos + pageHeight) fuel
    else []

/-- Closed form of the slicing loop: from `pos` it emits exactly
`⌈(H - pos) / P⌉⁺` bands at consecutive multiples of `P`, for any
sufficient fuel. -/
theorem sliceLoop_closed_form (H P : ℚ) (hP : 0 < P) :
    ∀ (fuel : ℕ) (pos : ℚ), (⌈(H - pos) / P⌉).toNat ≤ fuel →
      sliceLoop H P pos fuel =
        (List.range (⌈(H - pos) / P⌉).toNat).map
          (fun (k : ℕ) => -(pos + (k : ℚ) * P)) := by
  intro fuel
  induction fuel with
  | zero =>
    intro pos hfuel
    have h0 : (⌈(H - pos) / P⌉).toNat = 0 := Nat.le_zero.mp hfuel
    rw [h0]
    rfl
  | succ fuel ih =>
    intro pos hfuel
    by_cases hp : pos < H
    · have hcpos : 0 < ⌈(H - pos) / P⌉ :=
        Int.ceil_pos.mpr (div_pos (by linarith) hP)
      have hstep : ⌈(H - (pos + P)) / P⌉ = ⌈(H - pos) / P⌉ - 1 := by
        rw [show (H - (pos + P)) / P = (H - pos) / P - 1 by field_simp; ring]
        exact Int.ceil_sub_one _
      have htn : (⌈(H - pos) / P⌉).toNat = (⌈(H - (pos + P)) / P⌉).toNat + 1 := by
        rw [hstep]
        omega
      have hrec := ih (pos + P) (by omega)
      show (if pos < H then
          (-pos) :: sliceLoop H P (pos + P) fuel else []) = _
      rw [if_pos hp, hrec, htn, List.range_succ_eq_map, List.map_cons, List.map_map]
      congr 1
      · norm_num
      · apply List.map_congr_left
        intro k _
        simp only [Function.comp]
        push_cast
        ring
    · have hle : H - pos ≤ 0 := by linarith
      have h0 : (⌈(H - pos) / P⌉).toNat = 0 := by
        have hnp : ⌈(H - pos) / P⌉ ≤ 0 := by
          have : (H - pos) / P ≤ ((0 : ℤ) : ℚ) := by
            push_cast
            exact div_nonpos_of_nonpos_of_nonneg hle (le_of_lt hP)
          exact Int.ceil_le.mpr this
        omega
      rw [h0]
      show (if pos < H then
          (-pos) :: sliceLoop H P (pos + P) fuel else []) = _
      rw [if_neg hp]
      rfl

/-- C4 -/
theorem c4_band_slicing_pages (H P : ℚ) (hH : 0 < H) (hP : 0 < P) :
    ∀ fuel : ℕ, (⌈H / P⌉).toNat ≤ fuel →
      sliceLoop H P 0 fuel =
        (List.range (⌈H / P⌉).toNat).map (fun (k : ℕ) => -((k : ℚ) * P)) ∧
      (sliceLoop H P 0 fuel).length = (⌈H / P⌉).toNat ∧
      H ≤ ((⌈H / P⌉).toNat : ℚ) * P ∧
      (((⌈H / P⌉).toNat : ℚ) - 1) * P < H := by
  intro fuel hfuel
  have hc : ⌈(H - 0) / P⌉ = ⌈H / P⌉ := by norm_num
  have hmain := sliceLoop_closed_form H P hP fuel 0 (by rw [hc]; exact hfuel)
  rw [hc] at hmain
  have hcpos : 0 < ⌈H / P⌉ := Int.ceil_pos.mpr (div_pos hH hP)
  have hcast : ((⌈H / P⌉).toNat : ℚ) = ((⌈H / P⌉ : ℤ) : ℚ) := by
    exact_mod_cast congrArg (fun (z : ℤ) => (z : ℚ))
      (Int.toNat_of_nonneg (le_of_lt hcpos))
  have hlist : sliceLoop H P 0 fuel =
      (List.range (⌈H / P⌉).toNat).map (fun (k : ℕ) => -((k : ℚ) * P)) := by
    rw [hmain]
    apply List.map_congr_left
    intro k _
    ring
  refine ⟨hlist, ?_, ?_, ?_⟩
  · rw [hlist, List.length_map, List.length_range]
  · rw [hcast]
    exact (div_le_iff₀ hP).mp (Int.le_ceil (H / P))
  · rw [hcast]
    have hlt : ((⌈H / P⌉ : ℤ) : ℚ) - 1 < H / P := by
      have := Int.ceil_lt_add_one (H / P)
      linarith
    exact (lt_div_iff₀ hP).mp hlt

/-- Witness for C4: a bitmap of height 5 with page height 2 yields
`⌈5/2⌉ = 3` pages at offsets 0, −2, −4, and `3 × 2 ≥ 5`. -/
theorem c4_band_slicing_pages_witness :
    sliceLoop 5 2 0 3 = [0, -2, -4] ∧ (sliceLoop 5 2 0 3).length = 3 ∧
    (5 : ℚ) ≤ ((⌈(5 : ℚ) / 2⌉).toNat : ℚ) * 2 := by
  have hceil : (⌈(5 : ℚ) / 2⌉).toNat = 3 := by
    rw [show ⌈(5 : ℚ) / 2⌉ = 3 by rw [Int.ceil_eq_iff]; norm_num]
    rfl
  have h := c4_band_slicing_pages 5 2 (by norm_num) (by norm_num) 3 (by rw [hceil])
  refine ⟨?_, ?_, h.2.2.1⟩
  · rw [h.1, hceil]
    simp [List.range_succ]
    norm_num
  · rw [h.2.1, hceil]

namespace PdfGen

/-- Abstract outcome of the `fetch("/api/generate-pdf")` call: a rejected
promise (network error), a non-2xx response carrying the parsed `error`
field of its JSON body (`some "Unknown error"` stands for an unparseable
body, `none` for a missing field), or a 2xx response with PDF bytes. -/
inductive ServerOutcome where
  | netError : String → ServerOutcome
  | httpError : ℕ → Option String → ServerOutcome
  | ok : String → ServerOutcome
deriving DecidableEq, Repr

/-- Result record of `generatePdf`. -/
structure PdfGenerationResponse where
  success : Bool
  blob : Option String
  error : Option String
deriving DecidableEq, Repr

/-- Result record of `downloadPdf` / `generatePdfClientSide`. -/
structure PdfResult where
  success : Bool
  error : Option String
deriving DecidableEq, Repr

/-- Which export strategy produced the result. -/
inductive ExportMethod where
  | server : ExportMethod
  | client : ExportMethod
deriving DecidableEq, Repr

/-- Result record of `exportInvoiceToPdf`. -/
structure ExportResult where
  success : Bool
  error : Option String
  method : ExportMethod
deriving DecidableEq, Repr

/-- `generatePdf` of the PDF generator module: POST the generated HTML; any
network failure or non-2xx response is caught and converted into
`{success: false, error}`, where the non-2xx message is the body's `error`
field when truthy and `"Server error: <status>"` otherwise. -/
def generatePdf : ServerOutcome → PdfGenerationResponse
  | ServerOutcome.netError msg => ⟨false, none, some msg⟩
  | ServerOutcome.httpError status errField =>
    let msg := match errField with
      | some e => if e = "" then "Server error: " ++ toString status else e
      | none => "Server error: " ++ toString status
    ⟨false, none, some msg⟩
  | ServerOutcome.ok blob => ⟨true, some blob, none⟩

/-- `downloadPdf`: run `generatePdf` and trigger the browser download;
fails exactly when generation failed or produced no blob. -/
def downloadPdf (so : ServerOutcome) : PdfResult :=
  let result := generatePdf so
  if !result.success || result.blob.isNone then ⟨false, result.error⟩
  else ⟨true, none⟩

/-- `generatePdfClientSide`: fail with a fixed message when the DOM element
is missing; any rasteriser/PDF exception (the `canvasErr` oracle, which also
covers the dynamic imports) is caught into a failure result; otherwise
succeed. -/
def generatePdfClientSide (elementExists : Bool) (canvasErr : Option String) :
    PdfResult :=
  if !elementExists then ⟨false, some "Invoice element not found"⟩
  else
    match canvasErr with
    | some m => ⟨false, some m⟩
    | none => ⟨true, none⟩

/-- Did the server strategy succeed? -/
def serverOk : ServerOutcome → Bool
  | ServerOutcome.ok _ => true
  | _ => false

/-- `exportInvoiceToPdf`: try the server strategy first; on its success
report `method: server`, otherwise run the client strategy and return its
result tagged `method: client`. -/
def exportInvoiceToPdf (so : ServerOutcome) (elementExists : Bool)
    (canvasErr : Option String) : ExportResult :=
  let serverResult := downloadPdf so
  if serverResult.success then ⟨true, none, ExportMethod.server⟩
  else
    let clientResult := generatePdfClientSide elementExists canvasErr
    ⟨clientResult.success, clientResult.error, ExportMethod.client⟩

end PdfGen

/-- C5 -/
theorem c5_export_fallback (so : PdfGen.ServerOutcome) (elementExists : Bool)
    (canvasErr : Option String) :
    ((PdfGen.downloadPdf so).success = PdfGen.serverOk so) ∧
    (PdfGen.serverOk so = true →
      PdfGen.exportInvoiceToPdf so elementExists canvasErr =
        ⟨true, none, PdfGen.ExportMethod.server⟩) ∧
    (PdfGen.serverOk so = false →
      (PdfGen.exportInvoiceToPdf so elementExists canvasErr).method =
        PdfGen.ExportMethod.client ∧
      (PdfGen.exportInvoiceToPdf so elementExists canvasErr).success =
        (PdfGen.generatePdfClientSide elementExists canvasErr).success ∧
      (PdfGen.exportInvoiceToPdf so elementExists canvasErr).error =
        (PdfGen.generatePdfClientSide elementExists canvasErr).error) ∧
    ((PdfGen.exportInvoiceToPdf so elementExists canvasErr).success = true ↔
      (PdfGen.serverOk so = true ∨
        (PdfGen.generatePdfClientSide elementExists canvasErr).success = true)) := by
  rcases so with msg | ⟨status, errField⟩ | blob <;>
    rcases elementExists with _ | _ <;>
    rcases canvasErr with _ | m <;>
    refine ⟨rfl, ?_, ?_, ?_⟩ <;>
    simp [PdfGen.exportInvoiceToPdf, PdfGen.downloadPdf, PdfGen.generatePdf,
      PdfGen.generatePdfClientSide, PdfGen.serverOk]

/-- Witness for C5 at the spec's failure scenario: HTTP 500 with an
existing DOM element falls back to a successful client export. -/
theorem c5_export_fallback_witness :
    (PdfGen.exportInvoiceToPdf (PdfGen.ServerOutcome.httpError 500 none) true
      none).success = true ∧
    (PdfGen.exportInvoiceToPdf (PdfGen.ServerOutcome.httpError 500 none) true
      none).method = PdfGen.ExportMethod.client := by
  have h := (c5_export_fallback (PdfGen.ServerOutcome.httpError 500 none) true
    none).2.2.1 rfl
  exact ⟨h.2.1.trans rfl, h.1⟩

namespace Template

/-- JavaScript `String.replace(/c/g, rep)` for a single-character pattern:
replace every occurrence of `c` by `rep`. -/
def jsReplaceAll (c : Char) (rep : List Char) (l : List Char) : List Char :=
  l.flatMap (fun d => if d = c then rep else [d])

/-- The server-side branch of `escapeHtml`: five sequential global
replacements, ampersand first. -/
def escapeHtmlServer (l : List Char) : List Char :=
  jsReplaceAll (Char.ofNat 39) (("&#039;").data)
    (jsReplaceAll '"' (("&quot;").data)
      (jsReplaceAll '>' (("&gt;").data)
        (jsReplaceAll '<' (("&lt;").data)
          (jsReplaceAll '&' (("&amp;").data) l))))

/-- The fused per-character image of the five replacements. -/
def escapeChar (d : Char) : List Char :=
  if d = '&' then ("&amp;").data
  else if d = '<' then ("&lt;").data
  else if d = '>' then ("&gt;").data
  else if d = '"' then ("&quot;").data
  else if d = Char.ofNat 39 then ("&#039;").data
  else [d]

/-- Because ampersands are rewritten first and no later replacement target
occurs in an earlier replacement string, the sequential chain acts
independently on each source character. -/
theorem escapeHtmlServer_eq_flatMap (l : List Char) :
    escapeHtmlServer l = l.flatMap escapeChar := by
  unfold escapeHtmlServer jsReplaceAll
  rw [List.flatMap_assoc, List.flatMap_assoc, List.flatMap_assoc,
    List.flatMap_assoc]
  apply congrArg
  funext d
  by_cases h1 : d = '&'
  · subst h1; decide
  by_cases h2 : d = '<'
  · subst h2; decide
  by_cases h3 : d = '>'
  · subst h3; decide
  by_cases h4 : d = '"'
  · subst h4; decide
  by_cases h5 : d = Char.ofNat 39
  · subst h5; decide
  simp [escapeChar, h1, h2, h3, h4, h5]

/-- `nl2br` (server branch): escape, then turn newlines into `<br>`. -/
def nl2brServer (l : List Char) : List Char :=
  jsReplaceAll '\n' (("<br>").data) (escapeHtmlServer l)

end Template

/-- C10 -/
theorem c10_escapeHtml_neutralises_markup (s : String) :
    (∀ c ∈ Template.escapeHtmlServer s.data,
      c ≠ '<' ∧ c ≠ '>' ∧ c ≠ '"' ∧ c ≠ Char.ofNat 39) ∧
    Template.escapeHtmlServer s.data = s.data.flatMap Template.escapeChar ∧
    Template.nl2brServer s.data =
      Template.jsReplaceAll '\n' (("<br>").data) (Template.escapeHtmlServer s.data) := by
  refine ⟨?_, Template.escapeHtmlServer_eq_flatMap s.data, rfl⟩
  intro c hc
  rw [Template.escapeHtmlServer_eq_flatMap] at hc
  obtain ⟨d, _, hcd⟩ := List.mem_flatMap.mp hc
  unfold Template.escapeChar at hcd
  by_cases h1 : d = '&'
  · rw [if_pos h1] at hcd
    exact (by decide : ∀ x ∈ (("&amp;").data),
      x ≠ '<' ∧ x ≠ '>' ∧ x ≠ '"' ∧ x ≠ Char.ofNat 39) c hcd
  rw [if_neg h1] at hcd
  by_cases h2 : d = '<'
  · rw [if_pos h2] at hcd
    exact (by decide : ∀ x ∈ (("&lt;").data),
      x ≠ '<' ∧ x ≠ '>' ∧ x ≠ '"' ∧ x ≠ Char.ofNat 39) c hcd
  rw [if_neg h2] at hcd
  by_cases h3 : d = '>'
  · rw [if_pos h3] at hcd
    exact (by decide : ∀ x ∈ (("&gt;").data),
      x ≠ '<' ∧ x ≠ '>' ∧ x ≠ '"' ∧ x ≠ Char.ofNat 39) c hcd
  rw [if_neg h3] at hcd
  by_cases h4 : d = '"'
  · rw [if_pos h4] at hcd
    exact (by decide : ∀ x ∈ (("&quot;").data),
      x ≠ '<' ∧ x ≠ '>' ∧ x ≠ '"' ∧ x ≠ Char.ofNat 39) c hcd
  rw [if_neg h4] at hcd
  by_cases h5 : d = Char.ofNat 39
  · rw [if_pos h5] at hcd
    exact (by decide : ∀ x ∈ (("&#039;").data),
      x ≠ '<' ∧ x ≠ '>' ∧ x ≠ '"' ∧ x ≠ Char.ofNat 39) c hcd
  rw [if_neg h5] at hcd
  have : c = d := by simpa using hcd
  subst this
  refine ⟨h2, h3, h4, h5⟩

/-- Witness for C10 on a concrete string containing markup characters. -/
theorem c10_escapeHtml_neutralises_markup_witness :
    '<' ∉ Template.escapeHtmlServer (("a<b&").data) ∧
    Template.escapeHtmlServer (("a<b&").data) = ("a&lt;b&amp;").data := by
  constructor
  · intro h
    exact ((c10_escapeHtml_neutralises_markup ("a<b&")).1 '<' h).1 rfl
  · rw [(c10_escapeHtml_neutralises_markup ("a<b&")).2.1]
    decide

/-- JavaScript `String.trim()`. -/
def jsTrim (s : String) : String :=
  String.mk ((s.data.dropWhile jsIsWhitespace).reverse.dropWhile jsIsWhitespace
    |>.reverse)

/-- JavaScript string truthiness: nonempty. -/
def strTruthy (s : String) : Bool := !s.data.isEmpty

/-- Truthiness of `s?.trim()`: some non-whitespace content. -/
def trimmedNonempty (s : String) : Bool := strTruthy (jsTrim s)

/-- JavaScript `s || d` on strings. -/
def strOr (s d : String) : String := if strTruthy s then s else d

/-- Ambient mutable state a renderer call could observe: the clock and a
pseudo-random stream. The generator is threaded with it so that
independence from it is a provable statement. -/
structure AmbientEnv where
  now : ℕ
  random : ℕ → ℕ
deriving Inhabited

namespace Template

/-- A theme's base colour pair. -/
structure ThemePair where
  background : String
  header : String
deriving DecidableEq, Repr

/-- `THEME_PALETTES` of `invoice-html-template.ts`. -/
def THEME_PALETTES : ThemeOption → ThemePair
  | ThemeOption.light => ⟨"#ffffff", "#f3f4f6"⟩
  | ThemeOption.dark => ⟨"#1f2937", "#374151"⟩

/-- `getLogoSizeStyles` of `invoice-html-template.ts`. -/
def getLogoSizeStyles : LogoSize → String
  | LogoSize.large => "height: 6.5rem;"
  | LogoSize.small => "height: 3.5rem;"
  | LogoSize.medium => "height: 5rem;"

/-- Per-character image of the DOM branch of `escapeHtml`
(`div.textContent = text; div.innerHTML`): HTML text-node serialisation
escapes `&`, `<` and `>` but leaves quotes alone. -/
def domEscapeChar (d : Char) : List Char :=
  if d = '&' then ("&amp;").data
  else if d = '<' then ("&lt;").data
  else if d = '>' then ("&gt;").data
  else [d]

/-- `escapeHtml` of `invoice-html-template.ts`: the DOM route when a
`document` exists, the five-replacement fallback otherwise. -/
def escapeHtml (dom : Bool) (text : String) : String :=
  if dom then String.mk (text.data.flatMap domEscapeChar)
  else String.mk (escapeHtmlServer text.data)

/-- `nl2br` of `invoice-html-template.ts`. -/
def nl2br (dom : Bool) (text : String) : String :=
  String.mk (jsReplaceAll '\n' (("<br>").data) (escapeHtml dom text).data)

end Template

namespace Template

/-- `generateInvoiceHtml` of `invoice-html-template.ts`, transcribed
template literal included (literal braces written `\x7b`/`\x7d`, apostrophes
`\x27`). The `Math.pow` gamma, the `Intl` formatter and DOM availability are
oracle parameters; the ambient environment is threaded but — like the
source, which never reads the clock or a random source — not consulted. -/
def generateInvoiceHtml (pow : ℚ → ℚ → ℚ) (intl : JsNum → String → Option String)
    (dom : Bool) (env : AmbientEnv) (invoice : InvoiceData) : String :=
  let themePalette := THEME_PALETTES invoice.preferences.invoiceTheme
  let palette := getInvoicePalette pow
    (if invoice.style.useCustomColors then invoice.style.backgroundColor
     else themePalette.background)
    (if invoice.style.useCustomColors then invoice.style.headerColor
     else themePalette.header)
  let totals := calculateTotals invoice
  let currency := invoice.preferences.currency
  let template := invoice.preferences.template
  let logoSizeStyles := getLogoSizeStyles invoice.style.logoSize
  let isModern := template == TemplateOption.modern
  let isClassic := template == TemplateOption.classic
  let isMinimal := template == TemplateOption.minimal
  let borderRadius := if isModern then "0.75rem" else "0"
  let tableHeaderBg := if isClassic || isMinimal then "transparent"
    else palette.headerOverlay
  let tableHeaderColor := if isClassic || isMinimal then palette.muted
    else palette.headerForeground
  let balanceDueBg := if isMinimal then palette.border else palette.headerOverlay
  let balanceDueColor := if isMinimal then palette.foreground
    else palette.headerForeground
  let metaRows : List (String × String) :=
    (if trimmedNonempty invoice.meta.issueDate then
      [(invoice.labels.issueDate, invoice.meta.issueDate)] else []) ++
    (if trimmedNonempty invoice.meta.paymentTerms then
      [(invoice.labels.paymentTerms, invoice.meta.paymentTerms)] else []) ++
    (if trimmedNonempty invoice.meta.dueDate then
      [(invoice.labels.dueDate, invoice.meta.dueDate)] else []) ++
    (if trimmedNonempty invoice.meta.poNumber then
      [(invoice.labels.poNumber, invoice.meta.poNumber)] else []) ++
    (if trimmedNonempty invoice.meta.paymentDate then
      [(invoice.labels.paymentDate, invoice.meta.paymentDate)] else [])
  let fromDetails : List String :=
    (if strTruthy invoice.fromInfo.email then [invoice.fromInfo.email] else []) ++
    (if strTruthy invoice.fromInfo.phone then [invoice.fromInfo.phone] else [])
  let hasNotes := trimmedNonempty invoice.notes
  let hasTerms := trimmedNonempty invoice.terms
  let esc := escapeHtml dom
  "<!DOCTYPE html>\n" ++
  "<html lang=\"en\">\n" ++
  "<head>\n" ++
  "  <meta charset=\"UTF-8\">\n" ++
  "  <meta name=\"viewport\" content=\"width=device-width, initial-scale=1.0\">\n" ++
  "  <title>Invoice " ++ esc (strOr invoice.meta.invoiceNumber ("Draft")) ++
    "</title>\n" ++
  "  <style>\n" ++
  "    *, *::before, *::after \x7b box-sizing: border-box; margin: 0; padding: 0; \x7d\n" ++
  "\n" ++
  "    body \x7b\n" ++
  "      font-family: " ++ invoice.style.font ++
    ", -apple-system, BlinkMacSystemFont, \x27Segoe UI\x27, Roboto, sans-serif;\n" ++
  "      font-size: 14px;\n" ++
  "      line-height: 1.5;\n" ++
  "      color: " ++ palette.foreground ++ ";\n" ++
  "      background-color: " ++ palette.background ++ ";\n" ++
  "    \x7d\n" ++
  "\n" ++
  "    .invoice-container \x7b\n" ++
  "      max-width: 100%;\n" ++
  "      padding: 2.5rem;\n" ++
  "      background-color: " ++ palette.background ++ ";\n" ++
  "    \x7d\n" ++
  "\n" ++
  "    /* ---- Top row: logo left, title right ---- */\n" ++
  "    .invoice-top \x7b\n" ++
  "      display: flex;\n" ++
  "      justify-content: space-between;\n" ++
  "      align-items: flex-start;\n" ++
  "      margin-bottom: 0.25rem;\n" ++
  "    \x7d\n" ++
  "\n" ++
  "    .logo-image \x7b\n" ++
  "      " ++ logoSizeStyles ++ "\n" ++
  "      width: auto;\n" ++
  "      max-width: 260px;\n" ++
  "      object-fit: contain;\n" ++
  "    \x7d\n" ++
  "\n" ++
  "    .title-area \x7b text-align: right; \x7d\n" ++
  "\n" ++
  "    .invoice-title \x7b\n" ++
  "      font-size: 2.25rem;\n" ++
  "      font-weight: 700;\n" ++
  "      letter-spacing: 0.06em;\n" ++
  "      text-transform: uppercase;\n" ++
  "    \x7d\n" ++
  "\n" ++
  "    .invoice-number \x7b\n" ++
  "      font-size: 0.95rem;\n" ++
  "      color: " ++ palette.muted ++ ";\n" ++
  "      margin-top: 0.125rem;\n" ++
  "    \x7d\n" ++
  "\n" ++
  "    /* ---- Meta: right-aligned date/terms table ---- */\n" ++
  "    .meta-section \x7b\n" ++
  "      display: flex;\n" ++
  "      justify-content: flex-end;\n" ++
  "      margin-top: 1.25rem;\n" ++
  "      margin-bottom: 1.25rem;\n" ++
  "    \x7d\n" ++
  "\n" ++
  "    .meta-table \x7b border-collapse: collapse; \x7d\n" ++
  "\n" ++
  "    .meta-table td \x7b padding: 0.15rem 0; \x7d\n" ++
  "\n" ++
  "    .meta-label \x7b\n" ++
  "      text-align: right;\n" ++
  "      padding-right: 1rem;\n" ++
  "      color: " ++ palette.muted ++ ";\n" ++
  "      font-weight: 500;\n" ++
  "      white-space: nowrap;\n" ++
  "    \x7d\n" ++
  "\n" ++
  "    .meta-value \x7b\n" ++
  "      text-align: right;\n" ++
  "      font-weight: 500;\n" ++
  "      white-space: nowrap;\n" ++
  "    \x7d\n" ++
  "\n" ++
  "    /* ---- From name + Balance Due bar ---- */\n" ++
  "    .parties-row \x7b\n" ++
  "      display: flex;\n" ++
  "      justify-content: space-between;\n" ++
  "      align-items: flex-end;\n" ++
  "      margin-bottom: 0.75rem;\n" ++
  "    \x7d\n" ++
  "\n" ++
  "    .from-name \x7b font-size: 1.05rem; font-weight: 600; \x7d\n" ++
  "\n" ++
  "    .from-details \x7b\n" ++
  "      font-size: 0.85rem;\n" ++
  "      color: " ++ palette.muted ++ ";\n" ++
  "      margin-top: 0.125rem;\n" ++
  "    \x7d\n" ++
  "\n" ++
  "    .balance-due-bar \x7b\n" ++
  "      display: flex;\n" ++
  "      align-items: center;\n" ++
  "      gap: 1.5rem;\n" ++
  "      padding: 0.625rem 1.25rem;\n" ++
  "      background-color: " ++ balanceDueBg ++ ";\n" ++
  "      color: " ++ balanceDueColor ++ ";\n" ++
  "      border-radius: " ++ borderRadius ++ ";\n" ++
  "      font-weight: 600;\n" ++
  "    \x7d\n" ++
  "\n" ++
  "    .balance-due-bar .amount \x7b\n" ++
  "      font-size: 1.25rem;\n" ++
  "      font-weight: 700;\n" ++
  "    \x7d\n" ++
  "\n" ++
  "    /* ---- Bill To ---- */\n" ++
  "    .bill-to-section \x7b margin-bottom: 3rem; \x7d\n" ++
  "\n" ++
  "    .bill-to-section .label \x7b\n" ++
  "      font-size: 0.85rem;\n" ++
  "      font-weight: 600;\n" ++
  "      color: " ++ palette.muted ++ ";\n" ++
  "      margin-bottom: 0.125rem;\n" ++
  "    \x7d\n" ++
  "\n" ++
  "    .bill-to-section .client-info \x7b font-weight: 500; \x7d\n" ++
  "\n" ++
  "    .client-secondary \x7b\n" ++
  "      font-size: 0.85rem;\n" ++
  "      color: " ++ palette.muted ++ ";\n" ++
  "      margin-top: 0.125rem;\n" ++
  "    \x7d\n" ++
  "\n" ++
  "    /* ---- Items table ---- */\n" ++
  "    .items-table \x7b\n" ++
  "      width: 100%;\n" ++
  "      border-collapse: collapse;\n" ++
  "      margin-bottom: 2.5rem;\n" ++
  "      " ++ (if isModern then
    "border-radius: " ++ borderRadius ++ "; overflow: hidden;" else "") ++ "\n" ++
  "    \x7d\n" ++
  "\n" ++
  "    .items-table thead \x7b background-color: " ++ tableHeaderBg ++ "; \x7d\n" ++
  "\n" ++
  "    .items-table th \x7b\n" ++
  "      padding: 0.625rem 1rem;\n" ++
  "      text-align: left;\n" ++
  "      font-size: 0.8rem;\n" ++
  "      font-weight: 600;\n" ++
  "      color: " ++ tableHeaderColor ++ ";\n" ++
  "      " ++ (if isClassic then
    "border-bottom: 2px solid " ++ palette.border ++ ";" else "") ++ "\n" ++
  "      " ++ (if isMinimal then
    "border-bottom: 1px solid " ++ palette.border ++ ";" else "") ++ "\n" ++
  "    \x7d\n" ++
  "\n" ++
  "    .items-table th:last-child \x7b text-align: right; \x7d\n" ++
  "\n" ++
  "    .items-table td \x7b\n" ++
  "      padding: 0.75rem 1rem;\n" ++
  "      border-bottom: 1px solid " ++ palette.border ++ ";\n" ++
  "      vertical-align: top;\n" ++
  "    \x7d\n" ++
  "\n" ++
  "    .items-table td:last-child \x7b text-align: right; \x7d\n" ++
  "\n" ++
  "    .item-name \x7b font-weight: 500; \x7d\n" ++
  "\n" ++
  "    .item-description \x7b\n" ++
  "      font-size: 0.8rem;\n" ++
  "      color: " ++ palette.muted ++ ";\n" ++
  "      margin-top: 0.125rem;\n" ++
  "    \x7d\n" ++
  "\n" ++
  "    /* ---- Totals (right-aligned) ---- */\n" ++
  "    .totals-wrapper \x7b\n" ++
  "      display: flex;\n" ++
  "      justify-content: flex-end;\n" ++
  "      margin-bottom: 2rem;\n" ++
  "    \x7d\n" ++
  "\n" ++
  "    .totals-table \x7b border-collapse: collapse; min-width: 260px; \x7d\n" ++
  "\n" ++
  "    .totals-table td \x7b padding: 0.3rem 0; \x7d\n" ++
  "\n" ++
  "    .totals-label \x7b\n" ++
  "      text-align: right;\n" ++
  "      padding-right: 1.5rem;\n" ++
  "      color: " ++ palette.muted ++ ";\n" ++
  "    \x7d\n" ++
  "\n" ++
  "    .totals-value \x7b text-align: right; font-weight: 500; \x7d\n" ++
  "\n" ++
  "    .total-row td \x7b\n" ++
  "      font-weight: 700;\n" ++
  "      font-size: 1.05rem;\n" ++
  "      border-top: 2px solid " ++ palette.border ++ ";\n" ++
  "      padding-top: 0.5rem;\n" ++
  "    \x7d\n" ++
  "\n" ++
  "    .amount-due-row td \x7b\n" ++
  "      font-weight: 700;\n" ++
  "      font-size: 1.1rem;\n" ++
  "    \x7d\n" ++
  "\n" ++
  "    /* ---- Notes & Terms (stacked) ---- */\n" ++
  "    .notes-section, .terms-section \x7b margin-bottom: 1rem; \x7d\n" ++
  "\n" ++
  "    .section-label \x7b\n" ++
  "      font-size: 0.85rem;\n" ++
  "      font-weight: 600;\n" ++
  "      color: " ++ palette.muted ++ ";\n" ++
  "      margin-bottom: 0.25rem;\n" ++
  "    \x7d\n" ++
  "\n" ++
  "    .section-content \x7b\n" ++
  "      white-space: pre-wrap;\n" ++
  "      color: " ++ palette.foreground ++ ";\n" ++
  "    \x7d\n" ++
  "  </style>\n" ++
  "</head>\n" ++
  "<body>\n" ++
  "  <div class=\"invoice-container\">\n" ++
  "    <!-- Top: logo left, INVOICE title + number right -->\n" ++
  "    <div class=\"invoice-top\">\n" ++
  "      <div>\n" ++
  "        " ++ (if strTruthy invoice.logoData then
    "<img src=\"" ++ invoice.logoData ++ "\" alt=\"Logo\" class=\"logo-image\">"
    else "") ++ "\n" ++
  "      </div>\n" ++
  "      <div class=\"title-area\">\n" ++
  "        <h1 class=\"invoice-title\">" ++ esc invoice.labels.invoiceNumber ++
    "</h1>\n" ++
  "        <p class=\"invoice-number\"># " ++
    esc (strOr invoice.meta.invoiceNumber ("Draft")) ++ "</p>\n" ++
  "      </div>\n" ++
  "    </div>\n" ++
  "\n" ++
  "    <!-- From name + Balance Due bar -->\n" ++
  "    <div class=\"parties-row\">\n" ++
  "      <div>\n" ++
  "        <p class=\"from-name\">" ++ esc invoice.fromInfo.name ++ "</p>\n" ++
  "        " ++ (if fromDetails.length > 0 then
    "\n        <p class=\"from-details\">\n          " ++
      String.intercalate (" &middot; ") (fromDetails.map (fun d => esc d)) ++
      "\n        </p>" else "") ++ "\n" ++
  "        " ++ (if trimmedNonempty invoice.fromInfo.address then
    "\n        <p class=\"from-details\">" ++ nl2br dom invoice.fromInfo.address ++
      "</p>" else "") ++ "\n" ++
  "      </div>\n" ++
  "      <div class=\"balance-due-bar\">\n" ++
  "        <span>" ++ esc invoice.labels.amountDue ++ ":</span>\n" ++
  "        <span class=\"amount\">" ++ formatCurrency intl totals.amountDue currency ++
    "</span>\n" ++
  "      </div>\n" ++
  "    </div>\n" ++
  "\n" ++
  "    <!-- Meta: right-aligned date, terms, due date -->\n" ++
  "    " ++ (if metaRows.length > 0 then
    "\n    <div class=\"meta-section\">\n      <table class=\"meta-table\">\n        " ++
      String.join (metaRows.map (fun row =>
        "\n        <tr>\n          <td class=\"meta-label\">" ++ esc row.1 ++
        ":</td>\n          <td class=\"meta-value\">" ++ esc row.2 ++
        "</td>\n        </tr>")) ++
      "\n      </table>\n    </div>" else "") ++ "\n" ++
  "\n" ++
  "    <!-- Bill To -->\n" ++
  "    <div class=\"bill-to-section\">\n" ++
  "      <p class=\"label\">" ++ esc invoice.labels.billTo ++ ":</p>\n" ++
  "      <p class=\"client-info\">\n" ++
  "        " ++ esc invoice.client.name ++
    (if trimmedNonempty invoice.client.attnTo then
      ", " ++ esc invoice.labels.attnTo ++ ": " ++ esc invoice.client.attnTo
     else "") ++ "\n" ++
  "      </p>\n" ++
  "      " ++ (if trimmedNonempty invoice.client.email then
    "<p class=\"client-secondary\">" ++ esc invoice.client.email ++ "</p>"
    else "") ++ "\n" ++
  "      " ++ (if trimmedNonempty invoice.client.address then
    "<p class=\"client-secondary\">" ++ nl2br dom invoice.client.address ++ "</p>"
    else "") ++ "\n" ++
  "      " ++ (if trimmedNonempty invoice.client.shipTo then
    "<p class=\"client-secondary\"><strong>" ++ esc invoice.labels.shipTo ++
      ":</strong> " ++ nl2br dom invoice.client.shipTo ++ "</p>" else "") ++ "\n" ++
  "    </div>\n" ++
  "\n" ++
  "    <!-- Line items table -->\n" ++
  "    <table class=\"items-table\">\n" ++
  "      <thead>\n" ++
  "        <tr>\n" ++
  "          <th style=\"width: 40%\">" ++ esc invoice.labels.item ++ "</th>\n" ++
  "          <th style=\"width: 20%\">" ++ esc invoice.labels.quantity ++ "</th>\n" ++
  "          <th style=\"width: 20%\">" ++ esc invoice.labels.rate ++ "</th>\n" ++
  "          <th style=\"width: 20%\">Amount</th>\n" ++
  "        </tr>\n" ++
  "      </thead>\n" ++
  "      <tbody>\n" ++
  "        " ++ String.join (invoice.items.map (fun item =>
    let qty := parseFloatOrZero item.quantity
    let rate := parseFloatOrZero item.rate
    let amount := JsNum.jmul qty rate
    "\n        <tr>\n          <td>\n            <div class=\"item-name\">" ++
      esc item.name ++ "</div>\n            " ++
      (if strTruthy item.description then
        "<div class=\"item-description\">" ++ esc item.description ++ "</div>"
       else "") ++
      "\n          </td>\n          <td>" ++ esc item.quantity ++
      "</td>\n          <td>" ++ formatCurrency intl rate currency ++
      "</td>\n          <td>" ++ formatCurrency intl amount currency ++
      "</td>\n        </tr>")) ++ "\n" ++
  "      </tbody>\n" ++
  "    </table>\n" ++
  "\n" ++
  "    <!-- Totals -->\n" ++
  "    <div class=\"totals-wrapper\">\n" ++
  "      <table class=\"totals-table\">\n" ++
  "        <tr>\n" ++
  "          <td class=\"totals-label\">" ++ esc invoice.labels.subtotal ++
    ":</td>\n" ++
  "          <td class=\"totals-value\">" ++
    formatCurrency intl totals.subtotal currency ++ "</td>\n" ++
  "        </tr>\n" ++
  "        " ++ (if invoice.totals.taxEnabled then
    "\n        <tr>\n          <td class=\"totals-label\">" ++
      esc invoice.labels.tax ++
      (if invoice.totals.taxType == FeeType.percent then
        " (" ++ invoice.totals.taxValue ++ "%)" else "") ++
      ":</td>\n          <td class=\"totals-value\">" ++
      formatCurrency intl totals.tax currency ++ "</td>\n        </tr>"
    else "") ++ "\n" ++
  "        " ++ (if invoice.totals.discountEnabled then
    "\n        <tr>\n          <td class=\"totals-label\">" ++
      esc invoice.labels.discount ++
      (if invoice.totals.discountType == FeeType.percent then
        " (" ++ invoice.totals.discountValue ++ "%)" else "") ++
      ":</td>\n          <td class=\"totals-value\">-" ++
      formatCurrency intl totals.discount currency ++ "</td>\n        </tr>"
    else "") ++ "\n" ++
  "        " ++ (if invoice.totals.shippingEnabled then
    "\n        <tr>\n          <td class=\"totals-label\">" ++
      esc invoice.labels.shipping ++
      ":</td>\n          <td class=\"totals-value\">" ++
      formatCurrency intl totals.shipping currency ++ "</td>\n        </tr>"
    else "") ++ "\n" ++
  "        <tr class=\"total-row\">\n" ++
  "          <td class=\"totals-label\">" ++ esc invoice.labels.total ++ ":</td>\n" ++
  "          <td class=\"totals-value\">" ++
    formatCurrency intl totals.total currency ++ "</td>\n" ++
  "        </tr>\n" ++
  "        " ++ (if JsNum.jgtZero totals.amountPaid then
    "\n        <tr>\n          <td class=\"totals-label\">" ++
      esc invoice.labels.amountPaid ++
      ":</td>\n          <td class=\"totals-value\">-" ++
      formatCurrency intl totals.amountPaid currency ++
      "</td>\n        </tr>\n        <tr class=\"amount-due-row\">\n          " ++
      "<td class=\"totals-label\">" ++ esc invoice.labels.amountDue ++
      ":</td>\n          <td class=\"totals-value\">" ++
      formatCurrency intl totals.amountDue currency ++ "</td>\n        </tr>"
    else "") ++ "\n" ++
  "      </table>\n" ++
  "    </div>\n" ++
  "\n" ++
  "    <!-- Notes -->\n" ++
  "    " ++ (if hasNotes then
    "\n    <div class=\"notes-section\">\n      <p class=\"section-label\">" ++
      esc invoice.labels.notes ++
      ":</p>\n      <p class=\"section-content\">" ++ nl2br dom invoice.notes ++
      "</p>\n    </div>" else "") ++ "\n" ++
  "\n" ++
  "    <!-- Terms -->\n" ++
  "    " ++ (if hasTerms then
    "\n    <div class=\"terms-section\">\n      <p class=\"section-label\">" ++
      esc invoice.labels.terms ++
      ":</p>\n      <p class=\"section-content\">" ++ nl2br dom invoice.terms ++
      "</p>\n    </div>" else "") ++ "\n" ++
  "  </div>\n" ++
  "</body>\n" ++
  "</html>"

end Template

/-- C9 -/
theorem c9_generateInvoiceHtml_deterministic
    (pow : ℚ → ℚ → ℚ) (intl : JsNum → String → Option String) (dom : Bool) :
    (∀ (inv : InvoiceData) (e1 e2 : AmbientEnv),
      Template.generateInvoiceHtml pow intl dom e1 inv =
        Template.generateInvoiceHtml pow intl dom e2 inv) ∧
    (∀ (inv1 inv2 : InvoiceData) (e1 e2 : AmbientEnv), inv1 = inv2 →
      Template.generateInvoiceHtml pow intl dom e1 inv1 =
        Template.generateInvoiceHtml pow intl dom e2 inv2) := by
  constructor
  · intro inv e1 e2
    rfl
  · intro inv1 inv2 e1 e2 h
    rw [h]
    rfl

/-- Witness for C9: two calls on the same snapshot under different clocks
and random streams produce the same document. -/
theorem c9_generateInvoiceHtml_deterministic_witness :
    Template.generateInvoiceHtml (fun x _ => x) intlSample true
      ⟨0, fun _ => 0⟩ baseInvoice =
    Template.generateInvoiceHtml (fun x _ => x) intlSample true
      ⟨5, fun n => n + 7⟩ baseInvoice :=
  (c9_generateInvoiceHtml_deterministic (fun x _ => x) intlSample true).2
    baseInvoice baseInvoice ⟨0, fun _ => 0⟩ ⟨5, fun n => n + 7⟩ rfl
